import Mathlib

/-!
Verification development for the readyapi-mcp-server tool dispatcher.

The embedding models `src/index.ts` (tool dispatch), and the six handler
groups in `src/readyapi/project-manager.ts` (project analysis, test
execution, SOAP helper, assertion manager) and `src/readyapi/rest-helper.ts`
(REST helper, data manager).  Handlers receive a loosely typed argument bag,
so argument fields are modelled as JavaScript runtime values (`JVal`).
Thrown JavaScript exceptions are modelled with `Except String`; the
`new Date().toISOString()` timestamp is threaded as an explicit `now`
parameter.  Template literals are modelled as string concatenation of their
chunks and splices, in source order.
-/

/-- A JavaScript runtime value as far as the handlers inspect one:
`jundef` models a missing (`undefined`) field, the other constructors model
`null`, booleans, (integer) numbers and strings. -/
inductive JVal where
  | jundef
  | jnull
  | jbool (b : Bool)
  | jnum (n : Int)
  | jstr (s : String)
deriving DecidableEq, Repr

/-- JavaScript truthiness of a value (`!v` is `!v.truthy`). -/
def JVal.truthy : JVal → Bool
  | .jundef => false
  | .jnull => false
  | .jbool b => b
  | .jnum n => n != 0
  | .jstr s => s != ""

/-- Whether `typeof v === 'string'`. -/
def JVal.isString : JVal → Bool
  | .jstr _ => true
  | _ => false

/-- JavaScript `String(v)`, as used by template-literal interpolation. -/
def JVal.toStr : JVal → String
  | .jundef => "undefined"
  | .jnull => "null"
  | .jbool b => if b then "true" else "false"
  | .jnum n => toString n
  | .jstr s => s

/-- JavaScript `v || 'd'` where the result is interpolated into a template:
the value's string rendering if `v` is truthy, otherwise the default. -/
def JVal.orDefault (v : JVal) (d : String) : String :=
  if v.truthy then v.toStr else d

/-- A destructuring default (`const { x = 'd' } = args`): applies exactly
when the field is `undefined`. -/
def JVal.withDefault (v : JVal) (d : String) : JVal :=
  match v with
  | .jundef => .jstr d
  | w => w

/-- The shared guard `!(!v || typeof v !== 'string')`: the validation
`if (!projectPath || typeof projectPath !== 'string') throw ...` passes
exactly when `validStr v`. -/
def validStr (v : JVal) : Bool :=
  v.truthy && v.isString

/-- One element of the `content` array of a result:
`{ type: 'text', text: ... }`. -/
structure ContentBlock where
  type : String
  text : String
deriving DecidableEq, Repr

/-- The result envelope `{ content, isError? }`; `isError := none` models an
absent `isError` property. -/
structure Envelope where
  content : List ContentBlock
  isError : Option Bool := none
deriving DecidableEq, Repr

/-- An envelope with a single text block and no `isError` property. -/
def textEnv (s : String) : Envelope :=
  { content := [{ type := "text", text := s }] }

/-- The handler-group boundary: a `try`/`catch` that turns either outcome
into a single-text-block envelope, prefixing caught error messages with the
group's `Error <verbing> <domain>: ` head. -/
def mkEnvelope (errHead : String) (r : Except String String) : Envelope :=
  match r with
  | .ok s => textEnv s
  | .error m => textEnv (errHead ++ m)

/-- The text of the first content block of an envelope (every envelope the
program builds has exactly one). -/
def envText (e : Envelope) : String :=
  match e.content with
  | b :: _ => b.text
  | [] => ""

/-- The regex literal `/password=[^;]+/i` as position-wise admissible
character pairs: position `i` of the pattern matches `c` iff `c` is one of
the pair (case-insensitive letters, and the literal `=`). -/
def pwPat : List (Char × Char) :=
  [('p', 'P'), ('a', 'A'), ('s', 'S'), ('s', 'S'), ('w', 'W'),
   ('o', 'O'), ('r', 'R'), ('d', 'D'), ('=', '=')]

/-- Match a case-pair pattern against the head of a character list,
returning the remainder after the pattern on success. -/
def matchCI : List (Char × Char) → List Char → Option (List Char)
  | [], cs => some cs
  | _ :: _, [] => none
  | (lo, hi) :: ps, c :: cs => if c == lo || c == hi then matchCI ps cs else none

/-- The scan of `String.prototype.replace` with the non-global regex
`/password=[^;]+/i`: find the first position where `password=` (case
insensitive) is followed by at least one non-`;` character, replace
`password=` and the maximal run of non-`;` characters by `password=***`,
and keep everything else. -/
def redactFrom : List Char → List Char
  | [] => []
  | c :: cs =>
    match matchCI pwPat (c :: cs) with
    | some (d :: rest) =>
      if d == ';' then c :: redactFrom cs
      else "password=***".data ++ (d :: rest).dropWhile (fun e => e != ';')
    | _ => c :: redactFrom cs

/-- `s.replace(/password=[^;]+/i, 'password=***')` from
`createDatabaseConnection` in `src/readyapi/rest-helper.ts`. -/
def redactPassword (s : String) : String :=
  String.mk (redactFrom s.data)

/-- Characters allowed in a URL scheme after the first letter. -/
def schemeChar (c : Char) : Bool :=
  c.isAlphanum || c == '+' || c == '-' || c == '.'

/-- Scan for the `:` ending a scheme; fails when a non-scheme character or
the end of input is reached first. -/
def splitSchemeAux : List Char → List Char → Option (List Char × List Char)
  | _, [] => none
  | acc, c :: cs =>
    if c == ':' then some (acc.reverse, cs)
    else if schemeChar c then splitSchemeAux (c :: acc) cs
    else none

/-- Split off a URL scheme (letter, then scheme characters, then `:`). -/
def splitScheme : List Char → Option (List Char × List Char)
  | [] => none
  | c :: cs => if c.isAlpha then splitSchemeAux [c] cs else none

/-- A character that may be part of the host portion of a URL. -/
def hostChar (c : Char) : Bool :=
  c != '/' && c != '?' && c != '#' && c != '\\'

/-- ASCII lowercasing of one character. -/
def lowerChar (c : Char) : Char :=
  if 'A' ≤ c && c ≤ 'Z' then Char.ofNat (c.toNat + 32) else c

/-- The WHATWG special schemes that require a non-empty host. -/
def specialScheme (s : String) : Bool :=
  s == "http" || s == "https" || s == "ws" || s == "wss" || s == "ftp"

/-- Model of Node's WHATWG `new URL(s).host` as used by `createRestRequest`:
`none` models the constructor throwing `TypeError: Invalid URL`.  A string
with no scheme is invalid; a special scheme needs a non-empty host (read
after optional slashes, up to a delimiter, ASCII-lowercased); any other
scheme parses with an empty host.  Userinfo stripping, percent-encoding and
`file:` URLs are not modelled; no claim depends on them. -/
def urlHost (s : String) : Option String :=
  match splitScheme s.data with
  | none => none
  | some (sch, rest) =>
    let schl := String.mk (sch.map lowerChar)
    if specialScheme schl then
      let r := rest.dropWhile (fun c => c == '/' || c == '\\')
      let h := r.takeWhile hostChar
      if h.isEmpty then none else some (String.mk (h.map lowerChar))
    else some ""

/-- The command-line ternary in `performTestExecution`
(`testRunner === 'headless' ? testrunner.bat ... : ReadyAPI GUI ...`). -/
def execCmdLine (projectPath testSuitePath environment testRunner : JVal) : String :=
  if testRunner = JVal.jstr "headless" then
    "testrunner.bat -s\"" ++ testSuitePath.toStr ++ "\" -e\"" ++ environment.toStr
      ++ "\" \"" ++ projectPath.toStr ++ "\""
  else
    "ReadyAPI GUI execution with suite: " ++ testSuitePath.toStr

/-- The request-body ternary in `createRestRequest`
(`httpMethod !== 'GET' && httpMethod !== 'DELETE' ? {...} : ''`). -/
def restBodyPart (httpMethod : String) : String :=
  if httpMethod ≠ "GET" ∧ httpMethod ≠ "DELETE" then
    "\x7b\n  \"parameter1\": \"value1\",\n  \"parameter2\": \"value2\"\n\x7d"
  else ""

def performProjectOverview (projectPath : JVal) : String :=
  "ReadyAPI Project Analysis - Overview\n  \nProject Path: " ++ projectPath.toStr ++ "\n\n📊 Project Summary:\n- Analyzing ReadyAPI project structure...\n- Scanning for test suites and test cases\n- Identifying SOAP and REST services\n- Checking data sources and environments\n\n🔍 Quick Insights:\n- This functionality will scan the ReadyAPI project file (.xml format)\n- Parse composite projects and workspace structures\n- Identify test automation coverage\n- Analyze service definitions and mock services\n\n⚡ Next Steps:\n1. Implement XML parsing for ReadyAPI project files\n2. Extract test suite and test case information\n3. Analyze service definitions and endpoints\n4. Generate comprehensive project health report\n\nNote: This is a foundational implementation. Full XML parsing and ReadyAPI-specific analysis will be added in subsequent iterations."

def analyzeTestCoverage (projectPath : JVal) : String :=
  "ReadyAPI Test Coverage Analysis\n  \nProject: " ++ projectPath.toStr ++ "\n\n📈 Test Coverage Metrics:\n- SOAP Service Coverage: Analyzing...\n- REST Endpoint Coverage: Analyzing...\n- Data-Driven Test Coverage: Analyzing...\n- Assertion Coverage: Analyzing...\n\n🎯 Coverage Areas:\n1. Service Operations Testing\n2. Error Handling Scenarios\n3. Security Testing Coverage\n4. Performance Test Coverage\n\n📋 Recommendations:\n- Implement comprehensive test coverage analysis\n- Parse ReadyAPI project XML structure\n- Extract test case to service operation mappings\n- Generate detailed coverage reports"

def analyzeEndpointHealth (projectPath : JVal) : String :=
  "ReadyAPI Endpoint Health Analysis\n  \nProject: " ++ projectPath.toStr ++ "\n\n🏥 Endpoint Health Status:\n- SOAP Services: Checking availability...\n- REST Endpoints: Validating responses...\n- Mock Services: Verifying configurations...\n- Security Endpoints: Testing authentication...\n\n🔧 Health Checks:\n1. Service Availability\n2. Response Time Analysis\n3. Error Rate Monitoring\n4. Authentication Validation\n\n⚠️ Implementation Note:\n- Will implement actual endpoint pinging\n- SSL certificate validation\n- Authentication token testing\n- Response schema validation"

def analyzePerformanceMetrics (projectPath : JVal) : String :=
  "ReadyAPI Performance Metrics Analysis\n  \nProject: " ++ projectPath.toStr ++ "\n\n⚡ Performance Analysis:\n- Load Test Configurations: Scanning...\n- Response Time Baselines: Analyzing...\n- Throughput Metrics: Calculating...\n- Resource Utilization: Monitoring...\n\n📊 Key Metrics:\n1. Average Response Times\n2. Peak Load Capacity\n3. Error Rates Under Load\n4. Resource Consumption Patterns\n\n🚀 Performance Optimization:\n- Identify bottlenecks in test scenarios\n- Optimize data-driven test configurations\n- Analyze concurrent user simulation\n- Generate performance improvement recommendations\n\nImplementation will include:\n- LoadTest configuration parsing\n- TestRunner execution monitoring\n- Real-time performance data collection\n- Comprehensive performance reporting"

def performTestExecution (projectPath testSuitePath environment testRunner : JVal) (now : String) : String :=
  ("ReadyAPI Test Suite Execution Report\n  \n🚀 Execution Details:\n- Project: " ++ projectPath.toStr ++ "\n- Test Suite: " ++ testSuitePath.toStr ++ "\n- Environment: " ++ environment.toStr ++ "\n- Test Runner: " ++ testRunner.toStr ++ "\n- Started: ") ++ now ++ ("\n\n📋 Execution Steps:\n1. ✅ Project validation completed\n2. ✅ Test suite loaded successfully\n3. ✅ Environment configuration applied\n4. ⏳ Executing test cases...\n\n🔄 Test Execution Progress:\n- Test Case 1: SOAP Service Authentication ✅ PASSED\n- Test Case 2: REST API Endpoint Validation ✅ PASSED\n- Test Case 3: Data-Driven User Scenarios ⏳ RUNNING\n- Test Case 4: Error Handling Tests ⏳ PENDING\n- Test Case 5: Performance Validation ⏳ PENDING\n\n📊 Real-time Results:\n- Tests Executed: 2/5\n- Passed: 2\n- Failed: 0\n- Skipped: 0\n- Success Rate: 100%\n\n⚡ Performance Metrics:\n- Average Response Time: 245ms\n- Fastest Test: 156ms\n- Slowest Test: 334ms\n- Total Execution Time: 12.5s\n\n🔧 Implementation Features to Add:\n1. Real ReadyAPI testrunner integration\n2. Live execution monitoring\n3. Detailed assertion validation\n4. Custom report generation\n5. Error screenshot capture\n6. Environment-specific configurations\n\n💡 Command Line Equivalent:\n" ++ (execCmdLine projectPath testSuitePath environment testRunner) ++ "\n\nNote: This is a foundational implementation. Actual ReadyAPI integration with testrunner.bat/.sh and real-time monitoring will be implemented in subsequent iterations.")

def importWsdlText (projectPath wsdlUrl : JVal) (now : String) : String :=
  ("SOAP WSDL Import Operation\n  \n📥 Importing WSDL Service:\n- Project: " ++ projectPath.toStr ++ "\n- WSDL URL: " ++ wsdlUrl.toStr ++ "\n- Timestamp: ") ++ now ++ ("\n\n🔄 Import Process:\n1. ✅ Validating WSDL URL accessibility\n2. ✅ Downloading WSDL definition\n3. ✅ Parsing service operations\n4. ✅ Extracting message schemas\n5. ⏳ Creating service interface...\n6. ⏳ Generating sample requests...\n\n📋 WSDL Analysis Results:\n- Service Name: ExtractedFromWSDL\n- Target Namespace: http://tempuri.org/\n- Operations Found: \n  • GetUserProfile (Input: GetUserProfileRequest, Output: GetUserProfileResponse)\n  • UpdateUserData (Input: UpdateUserDataRequest, Output: UpdateUserDataResponse)\n  • DeleteUser (Input: DeleteUserRequest, Output: DeleteUserResponse)\n  \n🎯 Generated Components:\n- Service Interface: ✅ Created\n- Request Templates: ✅ Generated\n- Response Schemas: ✅ Validated\n- Test Cases: ⏳ Creating...\n\n💡 Next Steps:\n1. Configure service endpoint URLs\n2. Set up authentication if required\n3. Create test cases for each operation\n4. Add assertions for response validation\n\n🔧 Implementation Notes:\n- Will implement actual WSDL parsing using ReadyAPI APIs\n- Generate proper SOAP request templates\n- Handle complex types and namespaces\n- Support WS-Security configurations")

def createSoapRequestText (projectPath serviceName operationName : JVal) : String :=
  "SOAP Request Creation\n  \n🛠️ Creating SOAP Request:\n- Project: " ++ projectPath.toStr ++ "\n- Service: " ++ serviceName.toStr ++ "\n- Operation: " ++ operationName.toStr ++ "\n\n📝 Request Template:\n```xml\n<?xml version=\"1.0\" encoding=\"UTF-8\"?>\n<soap:Envelope xmlns:soap=\"http://www.w3.org/2003/05/soap-envelope\"\n               xmlns:tem=\"http://tempuri.org/\">\n   <soap:Header/>\n   <soap:Body>\n      <tem:" ++ operationName.toStr ++ ">\n         <!-- Auto-generated based on WSDL schema -->\n         <tem:parameter1>?</tem:parameter1>\n         <tem:parameter2>?</tem:parameter2>\n      </tem:" ++ operationName.toStr ++ ">\n   </soap:Body>\n</soap:Envelope>\n```\n\n🔧 Request Configuration:\n- Endpoint URL: http://example.com/service\n- SOAPAction: \"http://tempuri.org/" ++ operationName.toStr ++ "\"\n- Content-Type: text/xml; charset=utf-8\n- Authentication: None (configure as needed)\n\n✅ Generated Features:\n1. Complete SOAP envelope structure\n2. Proper namespace declarations\n3. Operation-specific body content\n4. Placeholder values for required fields\n\n🎯 Ready for Customization:\n- Replace placeholder values with test data\n- Configure endpoint authentication\n- Add custom headers if required\n- Set up data-driven parameters\n\nImplementation will include:\n- Dynamic request generation from WSDL\n- Schema-based validation\n- Namespace management\n- Security configuration options"

def validateSoapResponse (projectPath serviceName operationName : JVal) : String :=
  "SOAP Response Validation\n  \n🔍 Validating Response for:\n- Project: " ++ projectPath.toStr ++ "\n- Service: " ++ (serviceName.orDefault "All Services") ++ "\n- Operation: " ++ (operationName.orDefault "All Operations") ++ "\n\n✅ Validation Checks:\n1. Schema Compliance: ✅ PASSED\n2. SOAP Envelope Structure: ✅ PASSED\n3. Namespace Validation: ✅ PASSED\n4. Required Elements: ✅ PASSED\n5. Data Type Validation: ⚠️ WARNING\n\n📊 Validation Results:\n- Valid Elements: 12/13\n- Schema Violations: 0\n- Warnings: 1 (optional element missing)\n- Errors: 0\n\n⚠️ Validation Issues:\n- Optional element \x27timestamp\x27 not found in response\n- Recommendation: Add assertion to handle optional elements\n\n🎯 Suggested Assertions:\n1. XPath: //soap:Body/" ++ serviceName.toStr ++ "Response\n2. Schema Validation: Enable XSD validation\n3. Response Time: < 2000ms\n4. Status Code: 200 OK\n\nImplementation features:\n- Real-time response parsing\n- XSD schema validation\n- Custom assertion creation\n- Detailed error reporting"

def updateSoapEndpoint (projectPath serviceName : JVal) : String :=
  "SOAP Endpoint Update\n  \n🔄 Updating Endpoint Configuration:\n- Project: " ++ projectPath.toStr ++ "\n- Service: " ++ (serviceName.orDefault "All Services") ++ "\n\n📝 Current Configuration:\n- Development: http://dev-server:8080/service\n- Staging: http://staging-server:8080/service\n- Production: http://prod-server:8080/service\n\n🎯 Environment Management:\n- Switch between environments\n- Update endpoint URLs dynamically\n- Configure authentication per environment\n- Manage SSL certificates\n\n✅ Update Options:\n1. Single service endpoint update\n2. Bulk endpoint configuration\n3. Environment-specific settings\n4. Security configuration updates\n\nImplementation will support:\n- Dynamic endpoint switching\n- Environment-based configurations\n- SSL/TLS certificate management\n- Authentication token refresh"

def gatXpath (expectedValue : JVal) : String :=
  "XPath Assertion:\n- Expression: //response/data/user/name\n- Expected Value: " ++ (expectedValue.orDefault "John Doe") ++ "\n- Match Type: Exact Match\n- Allow Wildcards: No\n\n```xml\n<!-- Expected Response Structure -->\n<response>\n  <data>\n    <user>\n      <name>John Doe</name>\n      <id>12345</id>\n    </user>\n  </data>\n</response>\n```"

def gatJsonpath (expectedValue : JVal) : String :=
  "JSONPath Assertion:\n- Expression: $.data.user.name\n- Expected Value: " ++ (expectedValue.orDefault "John Doe") ++ "\n- Match Type: Exact Match\n- Case Sensitive: Yes\n\n```json\n\x7b\n  \"data\": \x7b\n    \"user\": \x7b\n      \"name\": \"John Doe\",\n      \"id\": 12345\n    \x7d\n  \x7d\n\x7d\n```"

def gatResponseTime (expectedValue : JVal) : String :=
  "Response Time Assertion:\n- Maximum Time: " ++ (expectedValue.orDefault "2000") ++ "ms\n- Current Time: To be measured\n- Failure Action: Mark test as failed\n- Include in Reports: Yes"

def gatStatusCode (expectedValue : JVal) : String :=
  "Status Code Assertion:\n- Expected Code: " ++ (expectedValue.orDefault "200") ++ "\n- Allowed Codes: 200, 201, 202\n- Failure Action: Mark test as failed\n- Retry on Failure: No"

def gatSchemaValidation (expectedValue : JVal) : String :=
  "Schema Validation Assertion:\n- Schema Type: JSON Schema\n- Schema Source: " ++ (expectedValue.orDefault "Inline definition") ++ "\n- Strict Validation: Yes\n- Report Missing Properties: Yes\n\n```json\n\x7b\n  \"type\": \"object\",\n  \"required\": [\"data\", \"status\"],\n  \"properties\": \x7b\n    \"data\": \x7b \"type\": \"object\" \x7d,\n    \"status\": \x7b \"type\": \"string\" \x7d\n  \x7d\n\x7d\n```"

def gatDefault (assertionType expectedValue : JVal) : String :=
  "Custom Assertion:\n- Type: " ++ assertionType.toStr ++ "\n- Configuration: " ++ (expectedValue.orDefault "To be defined") ++ "\n- Validation Logic: Custom implementation required"

/-- The `switch (assertionType)` of `generateAssertionTemplate` in
`src/readyapi/assertion-manager` (dispatching on string equality, with a
default branch echoing the unrecognized type). -/
def generateAssertionTemplate (assertionType expectedValue : JVal) : String :=
  if assertionType = JVal.jstr "xpath" then gatXpath expectedValue
  else if assertionType = JVal.jstr "jsonpath" then gatJsonpath expectedValue
  else if assertionType = JVal.jstr "response_time" then gatResponseTime expectedValue
  else if assertionType = JVal.jstr "status_code" then gatStatusCode expectedValue
  else if assertionType = JVal.jstr "schema_validation" then gatSchemaValidation expectedValue
  else gatDefault assertionType expectedValue

def createAssertionText (projectPath testStepName assertionType expectedValue : JVal) (now : String) : String :=
  ("Assertion Creation\n  \n🛠️ Creating Assertion:\n- Project: " ++ projectPath.toStr ++ "\n- Test Step: " ++ testStepName.toStr ++ "\n- Assertion Type: " ++ assertionType.toStr ++ "\n- Expected Value: " ++ (expectedValue.orDefault "To be configured") ++ "\n- Created: ") ++ now ++ ("\n\n📝 Assertion Configuration:\n\n" ++ (generateAssertionTemplate assertionType expectedValue) ++ "\n\n✅ Assertion Features:\n1. Automatic failure detection\n2. Detailed error reporting\n3. Performance monitoring\n4. Custom validation logic\n\n🎯 Validation Rules:\n- Strict type checking\n- Null value handling\n- Array/object validation\n- Regular expression support\n\n🔧 Advanced Options:\n- Custom error messages\n- Conditional assertions\n- Data-driven validation\n- Multi-level path checking\n\nImplementation includes:\n- Dynamic assertion generation\n- Real-time validation\n- Comprehensive error reporting\n- Performance impact monitoring")

def validateResponse (projectPath testStepName : JVal) (now : String) : String :=
  ("Response Validation Report\n  \n🔍 Validating Response for:\n- Project: " ++ projectPath.toStr ++ "\n- Test Step: " ++ (testStepName.orDefault "All test steps") ++ "\n- Validation Time: ") ++ now ++ ("\n\n📊 Assertion Results:\n1. XPath Assertion: ✅ PASSED\n   - Expression: //response/user/name\n   - Expected: \"John Doe\"\n   - Actual: \"John Doe\"\n\n2. JSONPath Assertion: ✅ PASSED\n   - Expression: $.data.status\n   - Expected: \"success\"\n   - Actual: \"success\"\n\n3. Response Time: ✅ PASSED\n   - Expected: < 2000ms\n   - Actual: 1245ms\n\n4. Status Code: ✅ PASSED\n   - Expected: 200\n   - Actual: 200\n\n5. Schema Validation: ⚠️ WARNING\n   - Schema: User Profile Schema\n   - Issue: Optional field \x27avatar\x27 missing\n\n📈 Validation Summary:\n- Total Assertions: 5\n- Passed: 4\n- Failed: 0\n- Warnings: 1\n- Success Rate: 100%\n\n🎯 Recommendations:\n- Review optional field handling\n- Add assertion for avatar field\n- Consider flexible schema validation\n\nImplementation features:\n- Real-time assertion monitoring\n- Detailed failure analysis\n- Performance impact tracking\n- Custom validation rules")

def updateAssertion (projectPath testStepName assertionType expectedValue : JVal) : String :=
  "Assertion Update\n  \n🔄 Updating Assertion:\n- Project: " ++ projectPath.toStr ++ "\n- Test Step: " ++ (testStepName.orDefault "Specified step") ++ "\n- Assertion Type: " ++ (assertionType.orDefault "All types") ++ "\n- New Expected Value: " ++ (expectedValue.orDefault "To be updated") ++ "\n\n✅ Update Operations:\n1. Backup existing assertion configuration\n2. Apply new validation rules\n3. Test assertion with sample data\n4. Update test case documentation\n\n🎯 Change Summary:\n- Previous Configuration: Saved\n- New Configuration: Applied\n- Validation: Successful\n- Impact Assessment: Minimal\n\nImplementation includes:\n- Version control for assertions\n- Rollback capabilities\n- Impact analysis\n- Automated testing"

def listAssertions (projectPath testStepName : JVal) : String :=
  "Assertion Inventory\n  \n📋 Assertions for:\n- Project: " ++ projectPath.toStr ++ "\n- Test Step: " ++ (testStepName.orDefault "All test steps") ++ "\n\n🔍 Active Assertions:\n\n1. **XPath Assertion - User Name Validation**\n   - Expression: //response/user/name\n   - Expected: \"John Doe\"\n   - Status: Active ✅\n\n2. **JSONPath Assertion - Status Check**\n   - Expression: $.data.status\n   - Expected: \"success\"\n   - Status: Active ✅\n\n3. **Response Time Assertion**\n   - Maximum Time: 2000ms\n   - Status: Active ✅\n\n4. **Status Code Assertion**\n   - Expected Code: 200\n   - Status: Active ✅\n\n5. **Schema Validation**\n   - Schema: User Profile Schema\n   - Status: Active ⚠️ (warnings)\n\n📊 Assertion Statistics:\n- Total Assertions: 5\n- Active: 5\n- Disabled: 0\n- Failed Recently: 0\n- Average Execution Time: 12ms\n\n🎯 Maintenance Notes:\n- All assertions are functioning properly\n- Consider adding negative test assertions\n- Review schema validation warnings\n\nImplementation features:\n- Comprehensive assertion catalog\n- Status monitoring\n- Performance tracking\n- Maintenance recommendations"

def createRestRequestText (projectPath endpoint : JVal) (httpMethod host : String) (now : String) : String :=
  ("REST API Request Creation\n  \n🛠️ Creating REST Request:\n- Project: " ++ projectPath.toStr ++ "\n- Endpoint: " ++ endpoint.toStr ++ "\n- HTTP Method: " ++ httpMethod ++ "\n- Timestamp: ") ++ now ++ ("\n\n📝 Request Configuration:\n- URL: " ++ endpoint.toStr ++ "\n- Method: " ++ httpMethod ++ "\n- Content-Type: application/json\n- Accept: application/json\n\n🔧 Request Structure:\n```http\n" ++ httpMethod ++ " " ++ endpoint.toStr ++ " HTTP/1.1\nHost: " ++ host ++ "\nContent-Type: application/json\nAccept: application/json\nAuthorization: Bearer <token>\n\n" ++ (restBodyPart httpMethod) ++ "\n```\n\n✅ Generated Components:\n1. HTTP request template\n2. Headers configuration\n3. Authentication placeholder\n4. Request body template (for POST/PUT/PATCH)\n\n🎯 Ready for Configuration:\n- Add authentication tokens\n- Configure request parameters\n- Set up request body data\n- Add custom headers\n\n🔄 Test Case Features:\n- Data-driven parameters\n- Response validation\n- Performance assertions\n- Error handling scenarios\n\nImplementation includes:\n- Dynamic parameter substitution\n- Multiple authentication methods\n- Request/response logging\n- Comprehensive error handling")

def importSwaggerSpecText (projectPath swaggerUrl : JVal) : String :=
  "OpenAPI/Swagger Import Operation\n  \n📥 Importing API Specification:\n- Project: " ++ projectPath.toStr ++ "\n- Swagger URL: " ++ swaggerUrl.toStr ++ "\n- Format: OpenAPI 3.0/Swagger 2.0\n\n🔄 Import Process:\n1. ✅ Downloading API specification\n2. ✅ Parsing OpenAPI/Swagger document\n3. ✅ Extracting endpoint definitions\n4. ✅ Analyzing request/response schemas\n5. ⏳ Generating test cases...\n6. ⏳ Creating resource tree...\n\n📋 API Analysis Results:\n- API Title: RESTful User Management API\n- Version: 1.0.0\n- Base URL: https://api.example.com/v1\n- Endpoints Found: 12\n- Security Schemes: OAuth2, API Key\n\n🎯 Generated Endpoints:\n- GET /users - List all users\n- POST /users - Create new user  \n- GET /users/\x7bid\x7d - Get user by ID\n- PUT /users/\x7bid\x7d - Update user\n- DELETE /users/\x7bid\x7d - Delete user\n- GET /users/\x7bid\x7d/orders - Get user orders\n- POST /auth/login - User authentication\n- POST /auth/refresh - Refresh token\n\n✅ Auto-Generated Features:\n1. Complete REST interface\n2. Request/response schemas\n3. Authentication configurations\n4. Parameter validation\n5. Error response handling\n\n🔧 Test Case Generation:\n- Positive test scenarios\n- Negative test cases\n- Boundary value testing\n- Security validation tests\n\nImplementation will support:\n- OpenAPI 3.0 and Swagger 2.0\n- Complex schema definitions\n- Multiple authentication methods\n- Comprehensive test coverage"

def validateRestEndpointText (projectPath endpoint : JVal) (now : String) : String :=
  ("REST Endpoint Validation\n  \n🔍 Validating Endpoint:\n- Project: " ++ projectPath.toStr ++ "\n- Endpoint: " ++ endpoint.toStr ++ "\n- Validation Time: ") ++ now ++ ("\n\n🏥 Health Check Results:\n- Connectivity: ✅ PASSED (200ms)\n- SSL Certificate: ✅ VALID\n- Response Format: ✅ JSON\n- Schema Validation: ✅ PASSED\n- Authentication: ⚠️ REQUIRES SETUP\n\n📊 Response Analysis:\n- Status Code: 200 OK\n- Content-Type: application/json\n- Response Time: 245ms\n- Response Size: 1.2KB\n- Headers: 8 received\n\n✅ Validation Checks:\n1. Endpoint Accessibility: ✅ PASSED\n2. Response Format: ✅ PASSED  \n3. Schema Compliance: ✅ PASSED\n4. Required Fields: ✅ PASSED\n5. Data Types: ✅ PASSED\n\n⚠️ Recommendations:\n- Configure authentication headers\n- Add response time assertions\n- Implement error scenario testing\n- Set up monitoring alerts\n\n🎯 Suggested Test Cases:\n1. Positive response validation\n2. Error handling (4xx, 5xx)\n3. Performance testing\n4. Security testing\n5. Data validation testing\n\nImplementation features:\n- Real-time endpoint monitoring\n- Automated health checks\n- Performance benchmarking\n- Security vulnerability scanning")

def testAuthentication (projectPath endpoint : JVal) : String :=
  "REST Authentication Testing\n  \n🔐 Testing Authentication for:\n- Project: " ++ projectPath.toStr ++ "\n- Endpoint: " ++ (endpoint.orDefault "Project endpoints") ++ "\n\n🎯 Authentication Methods:\n1. Bearer Token: ⏳ TESTING\n2. API Key: ⏳ TESTING  \n3. Basic Auth: ⏳ TESTING\n4. OAuth2: ⏳ TESTING\n\n📊 Test Results:\n- Bearer Token: ✅ VALID (expires in 3600s)\n- API Key: ✅ VALID\n- Basic Auth: ❌ UNAUTHORIZED\n- OAuth2: ✅ VALID (refresh available)\n\n🔄 Token Management:\n- Access Token: Valid\n- Refresh Token: Available\n- Token Expiry: 1 hour\n- Auto-refresh: Enabled\n\n✅ Authentication Scenarios:\n1. Valid credentials: ✅ PASSED\n2. Invalid credentials: ✅ PASSED (401 received)\n3. Expired token: ✅ PASSED (token refreshed)\n4. Missing authentication: ✅ PASSED (403 received)\n5. Insufficient permissions: ⏳ TESTING\n\n🛡️ Security Validation:\n- HTTPS enforcement: ✅ ENABLED\n- Token encryption: ✅ SECURE\n- Rate limiting: ✅ CONFIGURED\n- CORS headers: ✅ PRESENT\n\nImplementation includes:\n- Multiple auth method support\n- Automatic token refresh\n- Security best practices\n- Comprehensive auth testing"

def gdsExcel (filePath : JVal) : String :=
  "Excel Data Source:\n- File Path: " ++ (filePath.orDefault "data/test-data.xlsx") ++ "\n- Worksheet: Sheet1\n- Header Row: 1\n- Data Rows: 2-100\n\n📋 Expected Structure:\n| username | password | expected_result |\n|----------|----------|-----------------|\n| user1    | pass123  | success         |\n| user2    | pass456  | success         |\n| admin    | admin123 | admin_access    |\n\n🔧 Configuration:\n- Shared: Yes (available to all test cases)\n- Encoding: UTF-8\n- Date Format: yyyy-MM-dd"

def gdsCsv (filePath : JVal) : String :=
  "CSV Data Source:\n- File Path: " ++ (filePath.orDefault "data/test-data.csv") ++ "\n- Delimiter: Comma (,)\n- Quote Character: Double Quote (\")\n- Header Row: Included\n\n📋 Sample Data Format:\n```csv\nusername,password,email,role\njohn.doe,password123,john@example.com,user\njane.smith,securepass,jane@example.com,admin\ntest.user,testpass,test@example.com,guest\n```\n\n🔧 Configuration:\n- Trim Whitespace: Yes\n- Skip Empty Lines: Yes\n- Character Encoding: UTF-8"

def gdsDatabase : String :=
  "Database Data Source:\n- Connection: To be configured\n- Query: SELECT * FROM users WHERE active = 1\n- Update Strategy: Read-only\n- Connection Pool: Enabled\n\n📋 Sample Query Results:\n| id | username | email             | role  |\n|----|----------|-------------------|-------|\n| 1  | john.doe | john@example.com  | user  |\n| 2  | jane.sm  | jane@example.com  | admin |\n\n🔧 Configuration:\n- Driver: MySQL/PostgreSQL/Oracle\n- Connection Timeout: 30s\n- Query Timeout: 60s"

def gdsXml (filePath : JVal) : String :=
  "XML Data Source:\n- File Path: " ++ (filePath.orDefault "data/test-data.xml") ++ "\n- Root Element: testData\n- Row Element: record\n\n📋 Expected XML Structure:\n```xml\n<?xml version=\"1.0\" encoding=\"UTF-8\"?>\n<testData>\n  <record>\n    <username>john.doe</username>\n    <password>password123</password>\n    <role>user</role>\n  </record>\n  <record>\n    <username>jane.smith</username>\n    <password>securepass</password>\n    <role>admin</role>\n  </record>\n</testData>\n```\n\n🔧 Configuration:\n- XPath Expression: //record\n- Namespace Handling: Automatic"

def gdsJson (filePath : JVal) : String :=
  "JSON Data Source:\n- File Path: " ++ (filePath.orDefault "data/test-data.json") ++ "\n- Array Path: $.users\n- Object Structure: Key-value pairs\n\n📋 Expected JSON Structure:\n```json\n\x7b\n  \"users\": [\n    \x7b\n      \"username\": \"john.doe\",\n      \"password\": \"password123\",\n      \"email\": \"john@example.com\",\n      \"role\": \"user\"\n    \x7d,\n    \x7b\n      \"username\": \"jane.smith\", \n      \"password\": \"securepass\",\n      \"email\": \"jane@example.com\",\n      \"role\": \"admin\"\n    \x7d\n  ]\n\x7d\n```\n\n🔧 Configuration:\n- JSONPath Expression: $.users[*]\n- Property Mapping: Automatic"

def gdsDefault (dataSourceType : JVal) : String :=
  "Custom Data Source:\n- Type: " ++ dataSourceType.toStr ++ "\n- Configuration: To be defined\n- Integration: Custom implementation required"

/-- The `switch (dataSourceType)` of `generateDataSourceTemplate` in
`src/readyapi/data-manager` (dispatching on string equality, with a default
branch echoing the unrecognized type). -/
def generateDataSourceTemplate (dataSourceType filePath : JVal) : String :=
  if dataSourceType = JVal.jstr "excel" then gdsExcel filePath
  else if dataSourceType = JVal.jstr "csv" then gdsCsv filePath
  else if dataSourceType = JVal.jstr "database" then gdsDatabase
  else if dataSourceType = JVal.jstr "xml" then gdsXml filePath
  else if dataSourceType = JVal.jstr "json" then gdsJson filePath
  else gdsDefault dataSourceType

def createDataSourceText (projectPath dataSourceType filePath : JVal) (now : String) : String :=
  ("Data Source Creation\n  \n🗃️ Creating Data Source:\n- Project: " ++ projectPath.toStr ++ "\n- Type: " ++ dataSourceType.toStr.toUpper ++ "\n- Source File: " ++ (filePath.orDefault "To be configured") ++ "\n- Created: ") ++ now ++ ("\n\n📊 Data Source Configuration:\n\n" ++ (generateDataSourceTemplate dataSourceType filePath) ++ "\n\n✅ Data Source Features:\n1. Parameterized test execution\n2. Dynamic data injection\n3. Data validation\n4. Loop control management\n\n🔄 Integration Options:\n- Test Case Parameters\n- Property Transfer\n- Script Assertions\n- Load Testing Scenarios\n\n🎯 Data-Driven Testing:\n- Multiple data sets\n- Conditional execution\n- Error handling\n- Result correlation\n\nImplementation includes:\n- Multiple data source types\n- Real-time data refresh\n- Data validation\n- Performance optimization")

def importExcelDataText (projectPath filePath : JVal) (now : String) : String :=
  ("Excel Data Import\n  \n📥 Importing Excel Data:\n- Project: " ++ projectPath.toStr ++ "\n- File: " ++ filePath.toStr ++ "\n- Import Time: ") ++ now ++ ("\n\n🔄 Import Process:\n1. ✅ File validation completed\n2. ✅ Excel structure analyzed\n3. ✅ Headers extracted\n4. ✅ Data rows processed\n5. ⏳ Creating data source...\n\n📊 Import Results:\n- Worksheets Found: 3 (Sheet1, TestData, UserProfiles)\n- Active Sheet: Sheet1\n- Total Rows: 150\n- Data Rows: 149 (excluding header)\n- Columns: 8\n\n📋 Column Analysis:\n1. username (Text) - 149 values\n2. password (Text) - 149 values  \n3. email (Text) - 149 values\n4. role (Text) - 149 values\n5. active (Boolean) - 149 values\n6. created_date (Date) - 149 values\n7. last_login (DateTime) - 145 values (4 nulls)\n8. score (Numeric) - 149 values\n\n✅ Data Quality Check:\n- Missing Values: 4 (2.7%)\n- Duplicate Rows: 0\n- Invalid Formats: 0\n- Data Integrity: 97.3% ✅\n\n🎯 Ready for Use:\n- Data source created successfully\n- Available for test parameterization\n- Property mapping configured\n- Loop controls set up\n\nImplementation features:\n- Multiple worksheet support\n- Data type detection\n- Quality validation\n- Performance optimization")

def createDatabaseConnectionText (projectPath : JVal) (redacted : String) (now : String) : String :=
  ("Database Connection Setup\n  \n🔗 Creating Database Connection:\n- Project: " ++ projectPath.toStr ++ "\n- Connection String: " ++ redacted ++ "\n- Connection Time: ") ++ now ++ ("\n\n🔄 Connection Process:\n1. ✅ Connection string validated\n2. ✅ Database driver loaded\n3. ✅ Connection established\n4. ✅ Permissions verified\n5. ⏳ Testing sample queries...\n\n📊 Connection Details:\n- Database Type: MySQL/PostgreSQL/Oracle\n- Server: Detected from connection string\n- Database: Detected from connection string\n- Connection Pool: Enabled (min: 1, max: 10)\n- Timeout: 30 seconds\n\n🔍 Database Schema Analysis:\n- Tables Found: 25\n- Views: 8\n- Stored Procedures: 15\n- User Permissions: Read-only ✅\n\n📋 Available Tables:\n- users (150 rows)\n- orders (1,250 rows)\n- products (85 rows)\n- categories (12 rows)\n- user_profiles (150 rows)\n\n✅ Connection Features:\n1. Prepared statements support\n2. Transaction management\n3. Connection pooling\n4. Query timeout handling\n5. SQL injection protection\n\n🎯 Ready for Data Sources:\n- Create queries for test data\n- Set up parameterized queries\n- Configure data refresh schedules\n- Implement error handling\n\nImplementation includes:\n- Multiple database support\n- Security best practices\n- Performance optimization\n- Connection monitoring")

def generateTestData (projectPath dataSourceType : JVal) (now : String) : String :=
  ("Test Data Generation\n  \n🎲 Generating Test Data:\n- Project: " ++ projectPath.toStr ++ "\n- Data Type: " ++ (dataSourceType.orDefault "Mixed formats") ++ "\n- Generation Time: ") ++ now ++ ("\n\n🔄 Generation Process:\n1. ✅ Data patterns analyzed\n2. ✅ Generation rules defined\n3. ✅ Sample data created\n4. ⏳ Validating generated data...\n\n📊 Generated Data Sets:\n\n**User Data (100 records):**\n- Usernames: john.doe, jane.smith, mike.wilson...\n- Emails: Valid email formats\n- Passwords: 8-12 characters, mixed case\n- Roles: user, admin, guest, manager\n\n**Transaction Data (500 records):**\n- Transaction IDs: UUID format\n- Amounts: $1.00 - $9,999.99\n- Dates: Last 12 months\n- Status: completed, pending, failed\n\n**Product Data (50 records):**\n- Product Names: Generated catalog\n- SKUs: Alphanumeric codes\n- Prices: Market-realistic ranges\n- Categories: Electronics, Books, Clothing\n\n✅ Data Quality Features:\n1. Realistic data patterns\n2. Referential integrity\n3. Format validation\n4. Boundary testing values\n5. Edge case scenarios\n\n🎯 Export Options:\n- Excel (.xlsx)\n- CSV (.csv)\n- JSON (.json)\n- XML (.xml)\n- Database insert scripts\n\n🔧 Customization Options:\n- Data volume control\n- Pattern customization\n- Localization support\n- Industry-specific templates\n\nImplementation includes:\n- Smart data generation\n- Pattern recognition\n- Quality assurance\n- Multiple format support")

/-- Leaf `importWsdl` (SOAP helper): requires a truthy `wsdlUrl`, then
produces its template text; `.error` models the thrown `Error`. -/
def importWsdl (projectPath wsdlUrl : JVal) (now : String) : Except String String :=
  if !wsdlUrl.truthy then .error "WSDL URL is required for import operation"
  else .ok (importWsdlText projectPath wsdlUrl now)

/-- Leaf `createSoapRequest`: requires truthy `serviceName` then truthy
`operationName`, in that order. -/
def createSoapRequest (projectPath serviceName operationName : JVal) : Except String String :=
  if !serviceName.truthy then .error "Service name is required for creating SOAP request"
  else if !operationName.truthy then .error "Operation name is required for creating SOAP request"
  else .ok (createSoapRequestText projectPath serviceName operationName)

/-- Leaf `createAssertion`: requires truthy `testStepName` then truthy
`assertionType`. -/
def createAssertion (projectPath testStepName assertionType expectedValue : JVal)
    (now : String) : Except String String :=
  if !testStepName.truthy then .error "Test step name is required for creating assertion"
  else if !assertionType.truthy then .error "Assertion type is required"
  else .ok (createAssertionText projectPath testStepName assertionType expectedValue now)

/-- Leaf `createRestRequest`: requires a truthy `endpoint`; `httpMethod` is
`method || 'GET'`; `new URL(endpoint).host` throwing `Invalid URL` on an
unparseable endpoint is modelled by the `urlHost` match. -/
def createRestRequest (projectPath endpoint method : JVal) (now : String) :
    Except String String :=
  if !endpoint.truthy then .error "Endpoint URL is required for creating REST request"
  else
    let httpMethod := method.orDefault "GET"
    match urlHost endpoint.toStr with
    | none => .error "Invalid URL"
    | some host => .ok (createRestRequestText projectPath endpoint httpMethod host now)

/-- Leaf `importSwaggerSpec`: requires a truthy `swaggerUrl`. -/
def importSwaggerSpec (projectPath swaggerUrl : JVal) : Except String String :=
  if !swaggerUrl.truthy then .error "Swagger/OpenAPI specification URL is required"
  else .ok (importSwaggerSpecText projectPath swaggerUrl)

/-- Leaf `validateRestEndpoint`: requires a truthy `endpoint`. -/
def validateRestEndpoint (projectPath endpoint : JVal) (now : String) : Except String String :=
  if !endpoint.truthy then .error "Endpoint URL is required for validation"
  else .ok (validateRestEndpointText projectPath endpoint now)

/-- Leaf `createDataSource`: requires a truthy `dataSourceType`; a truthy
non-string value makes `dataSourceType.toUpperCase()` throw a `TypeError`,
modelled by the second guard. -/
def createDataSource (projectPath dataSourceType filePath : JVal) (now : String) :
    Except String String :=
  if !dataSourceType.truthy then .error "Data source type is required"
  else if !dataSourceType.isString then .error "dataSourceType.toUpperCase is not a function"
  else .ok (createDataSourceText projectPath dataSourceType filePath now)

/-- Leaf `importExcelData`: requires a truthy `filePath`. -/
def importExcelData (projectPath filePath : JVal) (now : String) : Except String String :=
  if !filePath.truthy then .error "Excel file path is required for import"
  else .ok (importExcelDataText projectPath filePath now)

/-- Leaf `createDatabaseConnection`: requires a truthy `connectionString`; a
truthy non-string makes `connectionString.replace(...)` throw a `TypeError`;
otherwise the echoed connection string is redacted with `redactPassword`. -/
def createDatabaseConnection (projectPath connectionString : JVal) (now : String) :
    Except String String :=
  if !connectionString.truthy then .error "Database connection string is required"
  else if !connectionString.isString then .error "connectionString.replace is not a function"
  else .ok (createDatabaseConnectionText projectPath (redactPassword connectionString.toStr) now)

/-- The loosely typed argument bag shared by every tool call; a field the
caller does not send is `jundef`. -/
structure ArgBag where
  projectPath : JVal := .jundef
  analysisType : JVal := .jundef
  testSuitePath : JVal := .jundef
  environment : JVal := .jundef
  testRunner : JVal := .jundef
  action : JVal := .jundef
  wsdlUrl : JVal := .jundef
  serviceName : JVal := .jundef
  operationName : JVal := .jundef
  endpoint : JVal := .jundef
  method : JVal := .jundef
  swaggerUrl : JVal := .jundef
  testStepName : JVal := .jundef
  assertionType : JVal := .jundef
  expectedValue : JVal := .jundef
  dataSourceType : JVal := .jundef
  filePath : JVal := .jundef
  connectionString : JVal := .jundef
deriving DecidableEq, Repr

/-- Body of `analyzeProject`: path validation, then the
`switch (analysisType)` with destructuring default `'overview'`. -/
def analyzeBody (bag : ArgBag) : Except String String :=
  let analysisType := bag.analysisType.withDefault "overview"
  if !validStr bag.projectPath then .error "Project path is required and must be a string"
  else if analysisType = JVal.jstr "overview" then .ok (performProjectOverview bag.projectPath)
  else if analysisType = JVal.jstr "test_coverage" then .ok (analyzeTestCoverage bag.projectPath)
  else if analysisType = JVal.jstr "endpoint_health" then .ok (analyzeEndpointHealth bag.projectPath)
  else if analysisType = JVal.jstr "performance_metrics" then .ok (analyzePerformanceMetrics bag.projectPath)
  else .error ("Unknown analysis type: " ++ analysisType.toStr)

/-- Body of `executeTestSuite`: both path validations (projectPath first),
destructuring defaults for `environment` and `testRunner`. -/
def execBody (bag : ArgBag) (now : String) : Except String String :=
  let environment := bag.environment.withDefault "default"
  let testRunner := bag.testRunner.withDefault "headless"
  if !validStr bag.projectPath then .error "Project path is required and must be a string"
  else if !validStr bag.testSuitePath then .error "Test suite path is required and must be a string"
  else .ok (performTestExecution bag.projectPath bag.testSuitePath environment testRunner now)

/-- Body of `manageSoapServices`: path validation, `!action` check, then the
`switch (action)` over the four SOAP actions. -/
def soapBody (bag : ArgBag) (now : String) : Except String String :=
  if !validStr bag.projectPath then .error "Project path is required and must be a string"
  else if !bag.action.truthy then .error "Action is required"
  else if bag.action = JVal.jstr "import_wsdl" then importWsdl bag.projectPath bag.wsdlUrl now
  else if bag.action = JVal.jstr "create_request" then
    createSoapRequest bag.projectPath bag.serviceName bag.operationName
  else if bag.action = JVal.jstr "validate_response" then
    .ok (validateSoapResponse bag.projectPath bag.serviceName bag.operationName)
  else if bag.action = JVal.jstr "update_endpoint" then
    .ok (updateSoapEndpoint bag.projectPath bag.serviceName)
  else .error ("Unknown SOAP action: " ++ bag.action.toStr)

/-- Body of `manageRestServices`: path validation, `!action` check, then the
`switch (action)` over the four REST actions. -/
def restBody (bag : ArgBag) (now : String) : Except String String :=
  if !validStr bag.projectPath then .error "Project path is required and must be a string"
  else if !bag.action.truthy then .error "Action is required"
  else if bag.action = JVal.jstr "create_request" then
    createRestRequest bag.projectPath bag.endpoint bag.method now
  else if bag.action = JVal.jstr "import_swagger" then
    importSwaggerSpec bag.projectPath bag.swaggerUrl
  else if bag.action = JVal.jstr "validate_endpoint" then
    validateRestEndpoint bag.projectPath bag.endpoint now
  else if bag.action = JVal.jstr "test_auth" then
    .ok (testAuthentication bag.projectPath bag.endpoint)
  else .error ("Unknown REST action: " ++ bag.action.toStr)

/-- Body of `manageAssertions`: path validation, `!action` check, then the
`switch (action)` over the four assertion actions. -/
def assertBody (bag : ArgBag) (now : String) : Except String String :=
  if !validStr bag.projectPath then .error "Project path is required and must be a string"
  else if !bag.action.truthy then .error "Action is required"
  else if bag.action = JVal.jstr "create_assertion" then
    createAssertion bag.projectPath bag.testStepName bag.assertionType bag.expectedValue now
  else if bag.action = JVal.jstr "validate_response" then
    .ok (validateResponse bag.projectPath bag.testStepName now)
  else if bag.action = JVal.jstr "update_assertion" then
    .ok (updateAssertion bag.projectPath bag.testStepName bag.assertionType bag.expectedValue)
  else if bag.action = JVal.jstr "list_assertions" then
    .ok (listAssertions bag.projectPath bag.testStepName)
  else .error ("Unknown assertion action: " ++ bag.action.toStr)

/-- Body of `manageTestData`: path validation, `!action` check, then the
`switch (action)` over the four data-management actions. -/
def dataBody (bag : ArgBag) (now : String) : Except String String :=
  if !validStr bag.projectPath then .error "Project path is required and must be a string"
  else if !bag.action.truthy then .error "Action is required"
  else if bag.action = JVal.jstr "create_datasource" then
    createDataSource bag.projectPath bag.dataSourceType bag.filePath now
  else if bag.action = JVal.jstr "import_excel" then
    importExcelData bag.projectPath bag.filePath now
  else if bag.action = JVal.jstr "create_database_connection" then
    createDatabaseConnection bag.projectPath bag.connectionString now
  else if bag.action = JVal.jstr "generate_test_data" then
    .ok (generateTestData bag.projectPath bag.dataSourceType now)
  else .error ("Unknown data management action: " ++ bag.action.toStr)

/-- The V8 error message thrown when a handler destructures an absent
(`undefined`) argument bag: every handler destructures `projectPath`
first. -/
def destructureMsg : String :=
  "Cannot destructure property \x27projectPath\x27 of \x27args\x27 as it is undefined."

/-- Handler `analyzeProject`: destructures the bag (throwing on an absent
bag), then runs the body inside the group's try/catch. -/
def analyzeProject (args : Option ArgBag) (_now : String) : Except String Envelope :=
  match args with
  | none => .error destructureMsg
  | some bag => .ok (mkEnvelope "Error analyzing ReadyAPI project: " (analyzeBody bag))

/-- Handler `executeTestSuite`. -/
def executeTestSuite (args : Option ArgBag) (now : String) : Except String Envelope :=
  match args with
  | none => .error destructureMsg
  | some bag => .ok (mkEnvelope "Error executing ReadyAPI test suite: " (execBody bag now))

/-- Handler `manageSoapServices`. -/
def manageSoapServices (args : Option ArgBag) (now : String) : Except String Envelope :=
  match args with
  | none => .error destructureMsg
  | some bag => .ok (mkEnvelope "Error managing SOAP services: " (soapBody bag now))

/-- Handler `manageRestServices`. -/
def manageRestServices (args : Option ArgBag) (now : String) : Except String Envelope :=
  match args with
  | none => .error destructureMsg
  | some bag => .ok (mkEnvelope "Error managing REST services: " (restBody bag now))

/-- Handler `manageAssertions`. -/
def manageAssertions (args : Option ArgBag) (now : String) : Except String Envelope :=
  match args with
  | none => .error destructureMsg
  | some bag => .ok (mkEnvelope "Error managing assertions: " (assertBody bag now))

/-- Handler `manageTestData`. -/
def manageTestData (args : Option ArgBag) (now : String) : Except String Envelope :=
  match args with
  | none => .error destructureMsg
  | some bag => .ok (mkEnvelope "Error managing test data: " (dataBody bag now))

/-- The fixed six-entry tool registry of `setupToolHandlers`. -/
def knownTools : List String :=
  ["readyapi_analyze_project", "readyapi_execute_test_suite",
   "readyapi_manage_soap_services", "readyapi_manage_rest_services",
   "readyapi_manage_assertions", "readyapi_manage_test_data"]

/-- The `switch (name)` of the CallTool request handler: route to a handler
or throw `Unknown tool: <name>`.  A handler's own throw (only the absent-bag
destructuring) also propagates as an error here. -/
def dispatchRun (name : String) (args : Option ArgBag) (now : String) :
    Except String Envelope :=
  match name with
  | "readyapi_analyze_project" => analyzeProject args now
  | "readyapi_execute_test_suite" => executeTestSuite args now
  | "readyapi_manage_soap_services" => manageSoapServices args now
  | "readyapi_manage_rest_services" => manageRestServices args now
  | "readyapi_manage_assertions" => manageAssertions args now
  | "readyapi_manage_test_data" => manageTestData args now
  | _ => .error ("Unknown tool: " ++ name)

/-- The CallTool request handler of `src/index.ts`: a recognized handler's
envelope is returned verbatim; any error caught at this level becomes an
`Error executing <name>: <message>` envelope with `isError: true`. -/
def dispatch (name : String) (args : Option ArgBag) (now : String) : Envelope :=
  match dispatchRun name args now with
  | .ok e => e
  | .error m =>
    { content := [{ type := "text", text := "Error executing " ++ name ++ ": " ++ m }],
      isError := some true }

/-- A string-valued function of the timestamp is a time splice when it is
either a fixed template with the timestamp spliced in at one position, or
does not depend on the timestamp at all.  Two calls with identical arguments
then agree everywhere except at the timestamp splice. -/
def TimeSplice (F : String → String) : Prop :=
  ∃ pre post, (∀ t, F t = pre ++ t ++ post) ∨ (∀ t, F t = pre)

/-- A handler body, as a function of the timestamp, either succeeds with a
fixed template around one timestamp splice or is independent of the
timestamp. -/
def SpliceBody (body : String → Except String String) : Prop :=
  (∃ a b, ∀ t, body t = .ok (a ++ t ++ b)) ∨ (∃ r, ∀ t, body t = r)

/-- No position strictly inside `a` starts a (case-insensitive) match of
`password=`, even one running over into `tail`: the regex scan of
`redactFrom` passes over all of `a`. -/
def noEarlyMatch : List Char → List Char → Bool
  | [], _ => true
  | c :: cs, tail => (matchCI pwPat (c :: (cs ++ tail))).isNone && noEarlyMatch cs tail

theorem mkEnvelope_isError (p : String) (r : Except String String) :
    (mkEnvelope p r).isError = none := by
  cases r <;> rfl

theorem mkEnvelope_content (p : String) (r : Except String String) :
    ∃ s, (mkEnvelope p r).content = [{ type := "text", text := s }] := by
  cases r <;> exact ⟨_, rfl⟩

theorem dispatch_analyze (bag : ArgBag) (now : String) :
    dispatch "readyapi_analyze_project" (some bag) now
      = mkEnvelope "Error analyzing ReadyAPI project: " (analyzeBody bag) := by
  simp [dispatch, dispatchRun, analyzeProject]

theorem dispatch_exec (bag : ArgBag) (now : String) :
    dispatch "readyapi_execute_test_suite" (some bag) now
      = mkEnvelope "Error executing ReadyAPI test suite: " (execBody bag now) := by
  simp [dispatch, dispatchRun, executeTestSuite]

theorem dispatch_soap (bag : ArgBag) (now : String) :
    dispatch "readyapi_manage_soap_services" (some bag) now
      = mkEnvelope "Error managing SOAP services: " (soapBody bag now) := by
  simp [dispatch, dispatchRun, manageSoapServices]

theorem dispatch_rest (bag : ArgBag) (now : String) :
    dispatch "readyapi_manage_rest_services" (some bag) now
      = mkEnvelope "Error managing REST services: " (restBody bag now) := by
  simp [dispatch, dispatchRun, manageRestServices]

theorem dispatch_assert (bag : ArgBag) (now : String) :
    dispatch "readyapi_manage_assertions" (some bag) now
      = mkEnvelope "Error managing assertions: " (assertBody bag now) := by
  simp [dispatch, dispatchRun, manageAssertions]

theorem dispatch_data (bag : ArgBag) (now : String) :
    dispatch "readyapi_manage_test_data" (some bag) now
      = mkEnvelope "Error managing test data: " (dataBody bag now) := by
  simp [dispatch, dispatchRun, manageTestData]

/-- C2: for every one of the six operations, a call whose `projectPath` is
omitted (`undefined`) or present but not a string yields the normal
(non-`isError`) envelope whose single text is the `Project path is required
and must be a string` message under the operation's error head; the result
does not depend on the discriminator, so the path check precedes the
discriminator check. -/
theorem c2_required_path (bag : ArgBag) (now : String)
    (h : bag.projectPath = JVal.jundef ∨ bag.projectPath.isString = false) :
    dispatch "readyapi_manage_soap_services" (some bag) now
        = textEnv "Error managing SOAP services: Project path is required and must be a string"
    ∧ dispatch "readyapi_manage_rest_services" (some bag) now
        = textEnv "Error managing REST services: Project path is required and must be a string"
    ∧ dispatch "readyapi_manage_assertions" (some bag) now
        = textEnv "Error managing assertions: Project path is required and must be a string"
    ∧ dispatch "readyapi_manage_test_data" (some bag) now
        = textEnv "Error managing test data: Project path is required and must be a string"
    ∧ dispatch "readyapi_analyze_project" (some bag) now
        = textEnv "Error analyzing ReadyAPI project: Project path is required and must be a string"
    ∧ dispatch "readyapi_execute_test_suite" (some bag) now
        = textEnv "Error executing ReadyAPI test suite: Project path is required and must be a string" := by
  have hv : validStr bag.projectPath = false := by
    rcases h with h | h
    · rw [h]; rfl
    · simp [validStr, h]
  refine ⟨?_, ?_, ?_, ?_, ?_, ?_⟩
  · rw [dispatch_soap]; simp only [soapBody, hv]; rfl
  · rw [dispatch_rest]; simp only [restBody, hv]; rfl
  · rw [dispatch_assert]; simp only [assertBody, hv]; rfl
  · rw [dispatch_data]; simp only [dataBody, hv]; rfl
  · rw [dispatch_analyze]; simp only [analyzeBody, hv]; rfl
  · rw [dispatch_exec]; simp only [execBody, hv]; rfl

theorem c2_required_path_witness :
    dispatch "readyapi_manage_soap_services" (some {}) "T"
        = textEnv "Error managing SOAP services: Project path is required and must be a string"
    ∧ dispatch "readyapi_manage_rest_services" (some {}) "T"
        = textEnv "Error managing REST services: Project path is required and must be a string"
    ∧ dispatch "readyapi_manage_assertions" (some {}) "T"
        = textEnv "Error managing assertions: Project path is required and must be a string"
    ∧ dispatch "readyapi_manage_test_data" (some {}) "T"
        = textEnv "Error managing test data: Project path is required and must be a string"
    ∧ dispatch "readyapi_analyze_project" (some {}) "T"
        = textEnv "Error analyzing ReadyAPI project: Project path is required and must be a string"
    ∧ dispatch "readyapi_execute_test_suite" (some {}) "T"
        = textEnv "Error executing ReadyAPI test suite: Project path is required and must be a string" :=
  c2_required_path {} "T" (Or.inl rfl)

/-- C4: each leaf action enforces its own nested required-field rule, and the
failure is returned as a normal enveloped error (never thrown to the host):
`create_request` (SOAP) requires `serviceName` (checked first, so a call with
neither `serviceName` nor `operationName` reports the service-name message)
and then `operationName`; `import_wsdl` requires `wsdlUrl`; `create_request`
(REST) requires `endpoint`; `import_swagger` requires `swaggerUrl`;
`create_assertion` requires `testStepName` then `assertionType`;
`create_datasource` requires `dataSourceType`; `import_excel` requires
`filePath`; `create_database_connection` requires `connectionString`. -/
theorem c4_leaf_required (bag : ArgBag) (now : String)
    (hp : validStr bag.projectPath = true) :
    (bag.action = JVal.jstr "create_request" → bag.serviceName.truthy = false →
      dispatch "readyapi_manage_soap_services" (some bag) now
        = textEnv "Error managing SOAP services: Service name is required for creating SOAP request")
    ∧ (bag.action = JVal.jstr "create_request" → bag.serviceName.truthy = true →
        bag.operationName.truthy = false →
      dispatch "readyapi_manage_soap_services" (some bag) now
        = textEnv "Error managing SOAP services: Operation name is required for creating SOAP request")
    ∧ (bag.action = JVal.jstr "import_wsdl" → bag.wsdlUrl.truthy = false →
      dispatch "readyapi_manage_soap_services" (some bag) now
        = textEnv "Error managing SOAP services: WSDL URL is required for import operation")
    ∧ (bag.action = JVal.jstr "create_request" → bag.endpoint.truthy = false →
      dispatch "readyapi_manage_rest_services" (some bag) now
        = textEnv "Error managing REST services: Endpoint URL is required for creating REST request")
    ∧ (bag.action = JVal.jstr "import_swagger" → bag.swaggerUrl.truthy = false →
      dispatch "readyapi_manage_rest_services" (some bag) now
        = textEnv "Error managing REST services: Swagger/OpenAPI specification URL is required")
    ∧ (bag.action = JVal.jstr "create_assertion" → bag.testStepName.truthy = false →
      dispatch "readyapi_manage_assertions" (some bag) now
        = textEnv "Error managing assertions: Test step name is required for creating assertion")
    ∧ (bag.action = JVal.jstr "create_assertion" → bag.testStepName.truthy = true →
        bag.assertionType.truthy = false →
      dispatch "readyapi_manage_assertions" (some bag) now
        = textEnv "Error managing assertions: Assertion type is required")
    ∧ (bag.action = JVal.jstr "create_datasource" → bag.dataSourceType.truthy = false →
      dispatch "readyapi_manage_test_data" (some bag) now
        = textEnv "Error managing test data: Data source type is required")
    ∧ (bag.action = JVal.jstr "import_excel" → bag.filePath.truthy = false →
      dispatch "readyapi_manage_test_data" (some bag) now
        = textEnv "Error managing test data: Excel file path is required for import")
    ∧ (bag.action = JVal.jstr "create_database_connection" → bag.connectionString.truthy = false →
      dispatch "readyapi_manage_test_data" (some bag) now
        = textEnv "Error managing test data: Database connection string is required") := by
  refine ⟨?_, ?_, ?_, ?_, ?_, ?_, ?_, ?_, ?_, ?_⟩
  · intro ha h1
    rw [dispatch_soap]; simp only [soapBody, createSoapRequest, hp, ha, h1]; rfl
  · intro ha h1 h2
    rw [dispatch_soap]; simp only [soapBody, createSoapRequest, hp, ha, h1, h2]; rfl
  · intro ha h1
    rw [dispatch_soap]; simp only [soapBody, importWsdl, hp, ha, h1]; rfl
  · intro ha h1
    rw [dispatch_rest]; simp only [restBody, createRestRequest, hp, ha, h1]; rfl
  · intro ha h1
    rw [dispatch_rest]; simp only [restBody, importSwaggerSpec, hp, ha, h1]; rfl
  · intro ha h1
    rw [dispatch_assert]; simp only [assertBody, createAssertion, hp, ha, h1]; rfl
  · intro ha h1 h2
    rw [dispatch_assert]; simp only [assertBody, createAssertion, hp, ha, h1, h2]; rfl
  · intro ha h1
    rw [dispatch_data]; simp only [dataBody, createDataSource, hp, ha, h1]; rfl
  · intro ha h1
    rw [dispatch_data]; simp only [dataBody, importExcelData, hp, ha, h1]; rfl
  · intro ha h1
    rw [dispatch_data]; simp only [dataBody, createDatabaseConnection, hp, ha, h1]; rfl

theorem c4_leaf_required_witness :
    dispatch "readyapi_manage_soap_services"
        (some { projectPath := JVal.jstr "/p.xml", action := JVal.jstr "create_request" }) "T"
      = textEnv "Error managing SOAP services: Service name is required for creating SOAP request" :=
  (c4_leaf_required { projectPath := JVal.jstr "/p.xml", action := JVal.jstr "create_request" }
    "T" (by decide)).1 rfl rfl

/-- C6: every envelope the dispatcher returns (success, handler-level
failure, or dispatcher-level failure) carries exactly one content block, and
that block has kind `text`. -/
theorem c6_single_text_block (name : String) (args : Option ArgBag) (now : String) :
    ∃ s, (dispatch name args now).content = [{ type := "text", text := s }] := by
  unfold dispatch
  cases h : dispatchRun name args now with
  | error m => exact ⟨_, rfl⟩
  | ok e =>
    have he : ∃ p r, e = mkEnvelope p r := by
      unfold dispatchRun at h
      split at h
      · unfold analyzeProject at h
        cases args with
        | none => exact absurd h (by simp)
        | some bag => exact ⟨_, _, (Except.ok.inj h).symm⟩
      · unfold executeTestSuite at h
        cases args with
        | none => exact absurd h (by simp)
        | some bag => exact ⟨_, _, (Except.ok.inj h).symm⟩
      · unfold manageSoapServices at h
        cases args with
        | none => exact absurd h (by simp)
        | some bag => exact ⟨_, _, (Except.ok.inj h).symm⟩
      · unfold manageRestServices at h
        cases args with
        | none => exact absurd h (by simp)
        | some bag => exact ⟨_, _, (Except.ok.inj h).symm⟩
      · unfold manageAssertions at h
        cases args with
        | none => exact absurd h (by simp)
        | some bag => exact ⟨_, _, (Except.ok.inj h).symm⟩
      · unfold manageTestData at h
        cases args with
        | none => exact absurd h (by simp)
        | some bag => exact ⟨_, _, (Except.ok.inj h).symm⟩
      · exact absurd h (by simp)
    obtain ⟨p, r, rfl⟩ := he
    exact mkEnvelope_content p r

/-- C10: there is an input meeting every stated required-field rule for
`manage_rest_services` with action `create_request` (non-empty string
`projectPath`, non-empty string `endpoint`) on which the operation does not
produce the success template: the endpoint `not a url` is not parseable, so
`new URL(endpoint)` throws and the call returns the normal envelope
`Error managing REST services: Invalid URL`. -/
theorem c10_unparseable_endpoint :
    dispatch "readyapi_manage_rest_services"
      (some { projectPath := JVal.jstr "/p.xml", action := JVal.jstr "create_request",
              endpoint := JVal.jstr "not a url" }) "2024-01-01T00:00:00.000Z"
      = textEnv "Error managing REST services: Invalid URL" := by
  rfl

theorem overview_head_split (x y : String) :
    ∃ r, "ReadyAPI Project Analysis - Overview\n  \nProject Path: " ++ x ++ y
        = "ReadyAPI Project Analysis - Overview" ++ r := by
  refine ⟨"\n  \nProject Path: " ++ x ++ y, ?_⟩
  rw [show ("ReadyAPI Project Analysis - Overview\n  \nProject Path: " : String)
      = "ReadyAPI Project Analysis - Overview" ++ "\n  \nProject Path: " from rfl]
  simp only [String.append_assoc]

/-- C8: `analyze_project` with a valid `projectPath` and no `analysisType`
takes the `overview` default: the result is a success envelope (no
`isError`) whose text begins with the project-overview heading. -/
theorem c8_overview_default (p now : String) (hp : p ≠ "") :
    (dispatch "readyapi_analyze_project" (some { projectPath := JVal.jstr p }) now).isError = none
    ∧ ∃ r, envText (dispatch "readyapi_analyze_project"
        (some { projectPath := JVal.jstr p }) now)
        = "ReadyAPI Project Analysis - Overview" ++ r := by
  have hv : validStr (JVal.jstr p) = true := by
    simp [validStr, JVal.truthy, JVal.isString, hp]
  have hb : analyzeBody { projectPath := JVal.jstr p }
      = .ok (performProjectOverview (JVal.jstr p)) := by
    simp [analyzeBody, JVal.withDefault, hv]
  constructor
  · rw [dispatch_analyze]; exact mkEnvelope_isError _ _
  · rw [dispatch_analyze, hb]
    show ∃ r, performProjectOverview (JVal.jstr p) = _ ++ r
    unfold performProjectOverview
    exact overview_head_split _ _

theorem c8_overview_default_witness :
    (dispatch "readyapi_analyze_project"
        (some { projectPath := JVal.jstr "/p.xml" }) "T").isError = none
    ∧ ∃ r, envText (dispatch "readyapi_analyze_project"
        (some { projectPath := JVal.jstr "/p.xml" }) "T")
        = "ReadyAPI Project Analysis - Overview" ++ r :=
  c8_overview_default "/p.xml" "T" (by decide)

theorem timeSplice_const (c : String) : TimeSplice (fun _ => c) :=
  ⟨c, "", Or.inr fun _ => rfl⟩

theorem spliceBody_const (r : Except String String) : SpliceBody (fun _ => r) :=
  Or.inr ⟨r, fun _ => rfl⟩

theorem spliceBody_ok (a b : String) : SpliceBody (fun t => .ok (a ++ t ++ b)) :=
  Or.inl ⟨a, b, fun _ => rfl⟩

theorem spliceBody_ite (c : Prop) [Decidable c] (f g : String → Except String String)
    (hf : SpliceBody f) (hg : SpliceBody g) :
    SpliceBody (fun t => if c then f t else g t) := by
  by_cases h : c
  · simpa [h] using hf
  · simpa [h] using hg

theorem spliceBody_env (p : String) (body : String → Except String String)
    (h : SpliceBody body) : TimeSplice (fun t => envText (mkEnvelope p (body t))) := by
  rcases h with ⟨a, b, hb⟩ | ⟨r, hr⟩
  · exact ⟨a, b, Or.inl fun t => by simp [hb, mkEnvelope, textEnv, envText]⟩
  · exact ⟨envText (mkEnvelope p r), "", Or.inr fun t => by simp [hr]⟩

theorem spliceBody_importWsdl (pp wu : JVal) : SpliceBody (fun t => importWsdl pp wu t) := by
  unfold importWsdl importWsdlText
  exact spliceBody_ite _ _ _ (spliceBody_const _) (spliceBody_ok _ _)

theorem spliceBody_createRestRequest (pp ep m : JVal) :
    SpliceBody (fun t => createRestRequest pp ep m t) := by
  simp only [createRestRequest]
  refine spliceBody_ite _ _ _ (spliceBody_const _) ?_
  cases ho : urlHost ep.toStr with
  | none => simp only [ho]; exact spliceBody_const _
  | some host =>
    simp only [ho]
    unfold createRestRequestText
    exact spliceBody_ok _ _

theorem spliceBody_validateRestEndpoint (pp ep : JVal) :
    SpliceBody (fun t => validateRestEndpoint pp ep t) := by
  unfold validateRestEndpoint validateRestEndpointText
  exact spliceBody_ite _ _ _ (spliceBody_const _) (spliceBody_ok _ _)

theorem spliceBody_createAssertion (pp tsn at_ ev : JVal) :
    SpliceBody (fun t => createAssertion pp tsn at_ ev t) := by
  unfold createAssertion createAssertionText
  exact spliceBody_ite _ _ _ (spliceBody_const _)
    (spliceBody_ite _ _ _ (spliceBody_const _) (spliceBody_ok _ _))

theorem spliceBody_createDataSource (pp dst fp : JVal) :
    SpliceBody (fun t => createDataSource pp dst fp t) := by
  unfold createDataSource createDataSourceText
  exact spliceBody_ite _ _ _ (spliceBody_const _)
    (spliceBody_ite _ _ _ (spliceBody_const _) (spliceBody_ok _ _))

theorem spliceBody_importExcelData (pp fp : JVal) :
    SpliceBody (fun t => importExcelData pp fp t) := by
  unfold importExcelData importExcelDataText
  exact spliceBody_ite _ _ _ (spliceBody_const _) (spliceBody_ok _ _)

theorem spliceBody_createDatabaseConnection (pp cs : JVal) :
    SpliceBody (fun t => createDatabaseConnection pp cs t) := by
  unfold createDatabaseConnection createDatabaseConnectionText
  exact spliceBody_ite _ _ _ (spliceBody_const _)
    (spliceBody_ite _ _ _ (spliceBody_const _) (spliceBody_ok _ _))

theorem spliceBody_okValidateResponse (pp tsn : JVal) :
    SpliceBody (fun t => .ok (validateResponse pp tsn t)) := by
  unfold validateResponse
  exact spliceBody_ok _ _

theorem spliceBody_okGenerateTestData (pp dst : JVal) :
    SpliceBody (fun t => .ok (generateTestData pp dst t)) := by
  unfold generateTestData
  exact spliceBody_ok _ _

theorem spliceBody_exec (bag : ArgBag) : SpliceBody (fun t => execBody bag t) := by
  simp only [execBody]
  refine spliceBody_ite _ _ _ (spliceBody_const _) ?_
  refine spliceBody_ite _ _ _ (spliceBody_const _) ?_
  unfold performTestExecution
  exact spliceBody_ok _ _

theorem spliceBody_soap (bag : ArgBag) : SpliceBody (fun t => soapBody bag t) := by
  unfold soapBody
  refine spliceBody_ite _ _ _ (spliceBody_const _) ?_
  refine spliceBody_ite _ _ _ (spliceBody_const _) ?_
  refine spliceBody_ite _ _ _ (spliceBody_importWsdl _ _) ?_
  refine spliceBody_ite _ _ _ (spliceBody_const _) ?_
  refine spliceBody_ite _ _ _ (spliceBody_const _) ?_
  exact spliceBody_ite _ _ _ (spliceBody_const _) (spliceBody_const _)

theorem spliceBody_rest (bag : ArgBag) : SpliceBody (fun t => restBody bag t) := by
  unfold restBody
  refine spliceBody_ite _ _ _ (spliceBody_const _) ?_
  refine spliceBody_ite _ _ _ (spliceBody_const _) ?_
  refine spliceBody_ite _ _ _ (spliceBody_createRestRequest _ _ _) ?_
  refine spliceBody_ite _ _ _ (spliceBody_const _) ?_
  refine spliceBody_ite _ _ _ (spliceBody_validateRestEndpoint _ _) ?_
  exact spliceBody_ite _ _ _ (spliceBody_const _) (spliceBody_const _)

theorem spliceBody_assert (bag : ArgBag) : SpliceBody (fun t => assertBody bag t) := by
  unfold assertBody
  refine spliceBody_ite _ _ _ (spliceBody_const _) ?_
  refine spliceBody_ite _ _ _ (spliceBody_const _) ?_
  refine spliceBody_ite _ _ _ (spliceBody_createAssertion _ _ _ _) ?_
  refine spliceBody_ite _ _ _ (spliceBody_okValidateResponse _ _) ?_
  refine spliceBody_ite _ _ _ (spliceBody_const _) ?_
  exact spliceBody_ite _ _ _ (spliceBody_const _) (spliceBody_const _)

theorem spliceBody_data (bag : ArgBag) : SpliceBody (fun t => dataBody bag t) := by
  unfold dataBody
  refine spliceBody_ite _ _ _ (spliceBody_const _) ?_
  refine spliceBody_ite _ _ _ (spliceBody_const _) ?_
  refine spliceBody_ite _ _ _ (spliceBody_createDataSource _ _ _) ?_
  refine spliceBody_ite _ _ _ (spliceBody_importExcelData _ _) ?_
  refine spliceBody_ite _ _ _ (spliceBody_createDatabaseConnection _ _) ?_
  exact spliceBody_ite _ _ _ (spliceBody_okGenerateTestData _ _) (spliceBody_const _)

theorem dispatchRun_unknown (name : String) (args : Option ArgBag) (now : String)
    (h1 : name ≠ "readyapi_analyze_project") (h2 : name ≠ "readyapi_execute_test_suite")
    (h3 : name ≠ "readyapi_manage_soap_services") (h4 : name ≠ "readyapi_manage_rest_services")
    (h5 : name ≠ "readyapi_manage_assertions") (h6 : name ≠ "readyapi_manage_test_data") :
    dispatchRun name args now = .error ("Unknown tool: " ++ name) := by
  unfold dispatchRun
  split
  · exact absurd rfl h1
  · exact absurd rfl h2
  · exact absurd rfl h3
  · exact absurd rfl h4
  · exact absurd rfl h5
  · exact absurd rfl h6
  · rfl

theorem dispatch_unknown (name : String) (args : Option ArgBag) (now : String)
    (h1 : name ≠ "readyapi_analyze_project") (h2 : name ≠ "readyapi_execute_test_suite")
    (h3 : name ≠ "readyapi_manage_soap_services") (h4 : name ≠ "readyapi_manage_rest_services")
    (h5 : name ≠ "readyapi_manage_assertions") (h6 : name ≠ "readyapi_manage_test_data") :
    dispatch name args now
      = { content := [{ type := "text",
                        text := "Error executing " ++ name ++ ": "
                                  ++ ("Unknown tool: " ++ name) }],
          isError := some true } := by
  unfold dispatch
  rw [dispatchRun_unknown name args now h1 h2 h3 h4 h5 h6]

/-- C7: every call is a pure function of the argument bag and the current
time; for a fixed operation name and argument bag the returned text is
either a fixed template with the timestamp spliced in at a single position,
or independent of the timestamp altogether — so two calls with identical
argument bags produce textually identical output except for the embedded
timestamp, and no call depends on any previous call's result. -/
theorem c7_pure_time_splice (name : String) (args : Option ArgBag) :
    TimeSplice (fun t => envText (dispatch name args t)) := by
  by_cases h1 : name = "readyapi_analyze_project"
  · subst h1
    cases args with
    | none => exact ⟨_, "", Or.inr fun t => rfl⟩
    | some bag =>
      simp only [dispatch_analyze]
      exact ⟨_, "", Or.inr fun t => rfl⟩
  by_cases h2 : name = "readyapi_execute_test_suite"
  · subst h2
    cases args with
    | none => exact ⟨_, "", Or.inr fun t => rfl⟩
    | some bag =>
      simp only [dispatch_exec]
      exact spliceBody_env _ _ (spliceBody_exec bag)
  by_cases h3 : name = "readyapi_manage_soap_services"
  · subst h3
    cases args with
    | none => exact ⟨_, "", Or.inr fun t => rfl⟩
    | some bag =>
      simp only [dispatch_soap]
      exact spliceBody_env _ _ (spliceBody_soap bag)
  by_cases h4 : name = "readyapi_manage_rest_services"
  · subst h4
    cases args with
    | none => exact ⟨_, "", Or.inr fun t => rfl⟩
    | some bag =>
      simp only [dispatch_rest]
      exact spliceBody_env _ _ (spliceBody_rest bag)
  by_cases h5 : name = "readyapi_manage_assertions"
  · subst h5
    cases args with
    | none => exact ⟨_, "", Or.inr fun t => rfl⟩
    | some bag =>
      simp only [dispatch_assert]
      exact spliceBody_env _ _ (spliceBody_assert bag)
  by_cases h6 : name = "readyapi_manage_test_data"
  · subst h6
    cases args with
    | none => exact ⟨_, "", Or.inr fun t => rfl⟩
    | some bag =>
      simp only [dispatch_data]
      exact spliceBody_env _ _ (spliceBody_data bag)
  refine ⟨"Error executing " ++ name ++ ": " ++ ("Unknown tool: " ++ name), "",
    Or.inr fun t => ?_⟩
  simp only [dispatch_unknown name args t h1 h2 h3 h4 h5 h6]
  rfl

/-- C1, counterexample: `readyapi_analyze_project` is one of the six
recognized operations, yet invoking it with an absent argument bag returns
an envelope with `isError = true` (the handler's destructuring of
`undefined` throws, and the dispatcher's catch flags the error) — so
`isError` is not reserved to unknown operation names. -/
theorem c1_counterexample :
    "readyapi_analyze_project" ∈ knownTools
    ∧ (dispatch "readyapi_analyze_project" none "2024-01-01T00:00:00.000Z").isError
        = some true :=
  ⟨by simp [knownTools], rfl⟩

/-- C1, amended: the returned envelope has `isError = true` iff the
operation name is outside the six-entry registry or the argument bag itself
is absent (destructuring `undefined` throws past the handler); for an
unknown name the text contains the unrecognized name.  For recognized
operations called with a present argument bag — however malformed its
fields — `isError` is never set and all failures are normal envelopes. -/
theorem c1_amended_iserror (name : String) (args : Option ArgBag) (now : String) :
    ((dispatch name args now).isError = some true ↔ (name ∉ knownTools ∨ args = none))
    ∧ (name ∉ knownTools →
        ∃ pre post, envText (dispatch name args now) = pre ++ (name ++ post)) := by
  by_cases h1 : name = "readyapi_analyze_project"
  · subst h1
    refine ⟨?_, fun hmem => absurd (by simp [knownTools]) hmem⟩
    cases args with
    | none => simp [dispatch, dispatchRun, analyzeProject, knownTools]
    | some bag => rw [dispatch_analyze]; simp [mkEnvelope_isError, knownTools]
  by_cases h2 : name = "readyapi_execute_test_suite"
  · subst h2
    refine ⟨?_, fun hmem => absurd (by simp [knownTools]) hmem⟩
    cases args with
    | none => simp [dispatch, dispatchRun, executeTestSuite, knownTools]
    | some bag => rw [dispatch_exec]; simp [mkEnvelope_isError, knownTools]
  by_cases h3 : name = "readyapi_manage_soap_services"
  · subst h3
    refine ⟨?_, fun hmem => absurd (by simp [knownTools]) hmem⟩
    cases args with
    | none => simp [dispatch, dispatchRun, manageSoapServices, knownTools]
    | some bag => rw [dispatch_soap]; simp [mkEnvelope_isError, knownTools]
  by_cases h4 : name = "readyapi_manage_rest_services"
  · subst h4
    refine ⟨?_, fun hmem => absurd (by simp [knownTools]) hmem⟩
    cases args with
    | none => simp [dispatch, dispatchRun, manageRestServices, knownTools]
    | some bag => rw [dispatch_rest]; simp [mkEnvelope_isError, knownTools]
  by_cases h5 : name = "readyapi_manage_assertions"
  · subst h5
    refine ⟨?_, fun hmem => absurd (by simp [knownTools]) hmem⟩
    cases args with
    | none => simp [dispatch, dispatchRun, manageAssertions, knownTools]
    | some bag => rw [dispatch_assert]; simp [mkEnvelope_isError, knownTools]
  by_cases h6 : name = "readyapi_manage_test_data"
  · subst h6
    refine ⟨?_, fun hmem => absurd (by simp [knownTools]) hmem⟩
    cases args with
    | none => simp [dispatch, dispatchRun, manageTestData, knownTools]
    | some bag => rw [dispatch_data]; simp [mkEnvelope_isError, knownTools]
  have hne : name ∉ knownTools := by
    simp [knownTools, h1, h2, h3, h4, h5, h6]
  rw [dispatch_unknown name args now h1 h2 h3 h4 h5 h6]
  constructor
  · simp [hne]
  · intro _
    refine ⟨"Error executing ", ": " ++ ("Unknown tool: " ++ name), ?_⟩
    show "Error executing " ++ name ++ ": " ++ ("Unknown tool: " ++ name)
        = "Error executing " ++ (name ++ (": " ++ ("Unknown tool: " ++ name)))
    simp only [String.append_assoc]

theorem c1_amended_iserror_witness :
    ((dispatch "bogus_tool" (some {}) "T").isError = some true
      ↔ ("bogus_tool" ∉ knownTools ∨ (some ({} : ArgBag)) = none))
    ∧ ("bogus_tool" ∉ knownTools →
        ∃ pre post, envText (dispatch "bogus_tool" (some {}) "T")
          = pre ++ ("bogus_tool" ++ post)) :=
  c1_amended_iserror "bogus_tool" (some {}) "T"

theorem withDefault_ne (v : JVal) (d : String) (h : v ≠ JVal.jundef) :
    v.withDefault d = v := by
  cases v
  · exact absurd rfl h
  · rfl
  · rfl
  · rfl
  · rfl

/-- C3, counterexample: `analyze_project` takes the `analysisType`
discriminator, and with the out-of-enum value `bogus` it returns
`Error analyzing ReadyAPI project: Unknown analysis type: bogus`, which is
not of the claimed shape `Error managing <domain>: Unknown <domain> action:
<value>` (it does not even start with `Error managing `). -/
theorem c3_counterexample :
    envText (dispatch "readyapi_analyze_project"
        (some { projectPath := JVal.jstr "/p.xml", analysisType := JVal.jstr "bogus" }) "T")
      = "Error analyzing ReadyAPI project: Unknown analysis type: bogus"
    ∧ ¬ ∃ r : String,
        envText (dispatch "readyapi_analyze_project"
          (some { projectPath := JVal.jstr "/p.xml", analysisType := JVal.jstr "bogus" }) "T")
        = "Error managing " ++ r := by
  refine ⟨rfl, ?_⟩
  rintro ⟨r, hr⟩
  rw [show envText (dispatch "readyapi_analyze_project"
      (some { projectPath := JVal.jstr "/p.xml", analysisType := JVal.jstr "bogus" }) "T")
      = "Error analyzing ReadyAPI project: Unknown analysis type: bogus" from rfl] at hr
  have h2 := congrArg String.data hr
  simp [String.data_append] at h2

/-- C3, amended: for each of the four management operations, a present and
truthy `action` outside that operation's enum yields the exact text
`Error managing <domain>: Unknown <wording> action: <value>` with the
code's per-domain wording (`SOAP`, `REST`, `assertion`, `data management`);
for `analyze_project` the analogous failure reads
`Error analyzing ReadyAPI project: Unknown analysis type: <value>`. -/
theorem c3_amended_unknown_discriminator (bag : ArgBag) (now : String)
    (hp : validStr bag.projectPath = true) :
    (bag.action.truthy = true →
     bag.action ≠ JVal.jstr "import_wsdl" → bag.action ≠ JVal.jstr "create_request" →
     bag.action ≠ JVal.jstr "validate_response" → bag.action ≠ JVal.jstr "update_endpoint" →
      dispatch "readyapi_manage_soap_services" (some bag) now
        = textEnv ("Error managing SOAP services: Unknown SOAP action: " ++ bag.action.toStr))
    ∧ (bag.action.truthy = true →
       bag.action ≠ JVal.jstr "create_request" → bag.action ≠ JVal.jstr "import_swagger" →
       bag.action ≠ JVal.jstr "validate_endpoint" → bag.action ≠ JVal.jstr "test_auth" →
      dispatch "readyapi_manage_rest_services" (some bag) now
        = textEnv ("Error managing REST services: Unknown REST action: " ++ bag.action.toStr))
    ∧ (bag.action.truthy = true →
       bag.action ≠ JVal.jstr "create_assertion" → bag.action ≠ JVal.jstr "validate_response" →
       bag.action ≠ JVal.jstr "update_assertion" → bag.action ≠ JVal.jstr "list_assertions" →
      dispatch "readyapi_manage_assertions" (some bag) now
        = textEnv ("Error managing assertions: Unknown assertion action: " ++ bag.action.toStr))
    ∧ (bag.action.truthy = true →
       bag.action ≠ JVal.jstr "create_datasource" → bag.action ≠ JVal.jstr "import_excel" →
       bag.action ≠ JVal.jstr "create_database_connection" →
       bag.action ≠ JVal.jstr "generate_test_data" →
      dispatch "readyapi_manage_test_data" (some bag) now
        = textEnv ("Error managing test data: Unknown data management action: "
            ++ bag.action.toStr))
    ∧ (bag.analysisType ≠ JVal.jundef →
       bag.analysisType ≠ JVal.jstr "overview" → bag.analysisType ≠ JVal.jstr "test_coverage" →
       bag.analysisType ≠ JVal.jstr "endpoint_health" →
       bag.analysisType ≠ JVal.jstr "performance_metrics" →
      dispatch "readyapi_analyze_project" (some bag) now
        = textEnv ("Error analyzing ReadyAPI project: Unknown analysis type: "
            ++ bag.analysisType.toStr)) := by
  refine ⟨?_, ?_, ?_, ?_, ?_⟩
  · intro ht k1 k2 k3 k4
    rw [dispatch_soap]
    unfold soapBody
    rw [hp, ht]
    rw [if_neg (by decide : ¬((!true : Bool) = true))]
    rw [if_neg (by decide : ¬((!true : Bool) = true))]
    rw [if_neg k1, if_neg k2, if_neg k3, if_neg k4]
    show textEnv ("Error managing SOAP services: "
        ++ ("Unknown SOAP action: " ++ bag.action.toStr)) = _
    rw [← String.append_assoc]
    rfl
  · intro ht k1 k2 k3 k4
    rw [dispatch_rest]
    unfold restBody
    rw [hp, ht]
    rw [if_neg (by decide : ¬((!true : Bool) = true))]
    rw [if_neg (by decide : ¬((!true : Bool) = true))]
    rw [if_neg k1, if_neg k2, if_neg k3, if_neg k4]
    show textEnv ("Error managing REST services: "
        ++ ("Unknown REST action: " ++ bag.action.toStr)) = _
    rw [← String.append_assoc]
    rfl
  · intro ht k1 k2 k3 k4
    rw [dispatch_assert]
    unfold assertBody
    rw [hp, ht]
    rw [if_neg (by decide : ¬((!true : Bool) = true))]
    rw [if_neg (by decide : ¬((!true : Bool) = true))]
    rw [if_neg k1, if_neg k2, if_neg k3, if_neg k4]
    show textEnv ("Error managing assertions: "
        ++ ("Unknown assertion action: " ++ bag.action.toStr)) = _
    rw [← String.append_assoc]
    rfl
  · intro ht k1 k2 k3 k4
    rw [dispatch_data]
    unfold dataBody
    rw [hp, ht]
    rw [if_neg (by decide : ¬((!true : Bool) = true))]
    rw [if_neg (by decide : ¬((!true : Bool) = true))]
    rw [if_neg k1, if_neg k2, if_neg k3, if_neg k4]
    show textEnv ("Error managing test data: "
        ++ ("Unknown data management action: " ++ bag.action.toStr)) = _
    rw [← String.append_assoc]
    rfl
  · intro hd k1 k2 k3 k4
    rw [dispatch_analyze]
    unfold analyzeBody
    rw [withDefault_ne bag.analysisType "overview" hd, hp]
    rw [if_neg (by decide : ¬((!true : Bool) = true))]
    rw [if_neg k1, if_neg k2, if_neg k3, if_neg k4]
    show textEnv ("Error analyzing ReadyAPI project: "
        ++ ("Unknown analysis type: " ++ bag.analysisType.toStr)) = _
    rw [← String.append_assoc]
    rfl

theorem c3_amended_unknown_discriminator_witness :
    dispatch "readyapi_manage_soap_services"
        (some { projectPath := JVal.jstr "/p.xml", action := JVal.jstr "bogus",
                analysisType := JVal.jstr "weird" }) "T"
      = textEnv "Error managing SOAP services: Unknown SOAP action: bogus"
    ∧ dispatch "readyapi_manage_rest_services"
        (some { projectPath := JVal.jstr "/p.xml", action := JVal.jstr "bogus",
                analysisType := JVal.jstr "weird" }) "T"
      = textEnv "Error managing REST services: Unknown REST action: bogus"
    ∧ dispatch "readyapi_manage_assertions"
        (some { projectPath := JVal.jstr "/p.xml", action := JVal.jstr "bogus",
                analysisType := JVal.jstr "weird" }) "T"
      = textEnv "Error managing assertions: Unknown assertion action: bogus"
    ∧ dispatch "readyapi_manage_test_data"
        (some { projectPath := JVal.jstr "/p.xml", action := JVal.jstr "bogus",
                analysisType := JVal.jstr "weird" }) "T"
      = textEnv "Error managing test data: Unknown data management action: bogus"
    ∧ dispatch "readyapi_analyze_project"
        (some { projectPath := JVal.jstr "/p.xml", action := JVal.jstr "bogus",
                analysisType := JVal.jstr "weird" }) "T"
      = textEnv "Error analyzing ReadyAPI project: Unknown analysis type: weird" := by
  have h := c3_amended_unknown_discriminator
    { projectPath := JVal.jstr "/p.xml", action := JVal.jstr "bogus",
      analysisType := JVal.jstr "weird" } "T" (by decide)
  refine ⟨?_, ?_, ?_, ?_, ?_⟩
  · simpa [JVal.toStr] using h.1 rfl (by decide) (by decide) (by decide) (by decide)
  · simpa [JVal.toStr] using h.2.1 rfl (by decide) (by decide) (by decide) (by decide)
  · simpa [JVal.toStr] using h.2.2.1 rfl (by decide) (by decide) (by decide) (by decide)
  · simpa [JVal.toStr] using h.2.2.2.1 rfl (by decide) (by decide) (by decide) (by decide)
  · simpa [JVal.toStr] using h.2.2.2.2 (by decide) (by decide) (by decide) (by decide)
      (by decide)

theorem matchCI_self (r : List Char) :
    matchCI pwPat ("password=".data ++ r) = some r := rfl

theorem dropWhile_nonsemi (v b : List Char) (hvs : ∀ c ∈ v, c ≠ ';')
    (hb : b = [] ∨ ∃ b2, b = ';' :: b2) :
    (v ++ b).dropWhile (fun e => e != ';') = b := by
  induction v with
  | nil =>
    rcases hb with rfl | ⟨b2, rfl⟩
    · rfl
    · simp [List.dropWhile_cons]
  | cons c v' ih =>
    have hc : c ≠ ';' := hvs c (List.mem_cons_self c v')
    simp only [List.cons_append, List.dropWhile_cons, bne_iff_ne, ne_eq, hc,
      not_false_eq_true, if_true]
    exact ih fun d hd => hvs d (List.mem_cons_of_mem c hd)

theorem redactFrom_append (a v b : List Char)
    (hEarly : noEarlyMatch a ("password=".data ++ (v ++ b)) = true)
    (hv : v ≠ []) (hvs : ∀ c ∈ v, c ≠ ';')
    (hb : b = [] ∨ ∃ b2, b = ';' :: b2) :
    redactFrom (a ++ ("password=".data ++ (v ++ b)))
      = a ++ ("password=***".data ++ b) := by
  induction a with
  | nil =>
    obtain ⟨c, v', rfl⟩ : ∃ c v', v = c :: v' := by
      cases v with
      | nil => exact absurd rfl hv
      | cons c v' => exact ⟨c, v', rfl⟩
    have hc : (c == ';') = false := by
      have := hvs c (List.mem_cons_self c v')
      simp [this]
    show redactFrom ('p' :: 'a' :: 's' :: 's' :: 'w' :: 'o' :: 'r' :: 'd' :: '='
        :: (c :: (v' ++ b))) = [] ++ ("password=***".data ++ b)
    have hm : matchCI pwPat ('p' :: 'a' :: 's' :: 's' :: 'w' :: 'o' :: 'r' :: 'd' :: '='
        :: (c :: (v' ++ b))) = some (c :: (v' ++ b)) := rfl
    simp only [redactFrom, hm, hc, Bool.false_eq_true, if_false]
    rw [show (c :: (v' ++ b)).dropWhile (fun e => e != ';') = ((c :: v') ++ b).dropWhile
        (fun e => e != ';') from rfl]
    rw [dropWhile_nonsemi (c :: v') b hvs hb]
    rfl
  | cons c a' ih =>
    have h1 : (matchCI pwPat (c :: (a' ++ ("password=".data ++ (v ++ b))))).isNone = true
        ∧ noEarlyMatch a' ("password=".data ++ (v ++ b)) = true := by
      simpa [noEarlyMatch, Bool.and_eq_true] using hEarly
    have h2 : matchCI pwPat (c :: (a' ++ ("password=".data ++ (v ++ b)))) = none :=
      Option.isNone_iff_eq_none.mp h1.1
    show redactFrom (c :: (a' ++ ("password=".data ++ (v ++ b))))
        = c :: (a' ++ ("password=***".data ++ b))
    simp only [redactFrom, h2]
    rw [ih h1.2]

theorem redactPassword_append (a v b : String)
    (hEarly : noEarlyMatch a.data ("password=".data ++ (v.data ++ b.data)) = true)
    (hv : v.data ≠ []) (hvs : ∀ c ∈ v.data, c ≠ ';')
    (hb : b.data = [] ∨ ∃ b2, b.data = ';' :: b2) :
    redactPassword (a ++ ("password=" ++ (v ++ b))) = a ++ ("password=***" ++ b) := by
  apply String.ext
  show (String.mk (redactFrom (a ++ ("password=" ++ (v ++ b))).data)).data = _
  rw [show (a ++ ("password=" ++ (v ++ b))).data
      = a.data ++ ("password=".data ++ (v.data ++ b.data)) by
    simp [String.data_append]]
  rw [show (a ++ ("password=***" ++ b)).data
      = a.data ++ ("password=***".data ++ b.data) by
    simp [String.data_append]]
  exact redactFrom_append a.data v.data b.data hEarly hv hvs hb

set_option maxRecDepth 8192

/-- C5, counterexample: with connection string `user=secret;password=secret`
(whose password value `secret` also occurs in the `user` field), the
non-global regex replacement masks only the first `password=...` segment, so
the returned text of `create_database_connection` still contains the literal
password value `secret` — contradicting "the literal password value does not
appear in the returned text". -/
theorem c5_counterexample :
    redactPassword "user=secret;password=secret" = "user=secret;password=***"
    ∧ List.IsInfix "secret".data (envText (dispatch "readyapi_manage_test_data"
        (some { projectPath := JVal.jstr "/p.xml",
                action := JVal.jstr "create_database_connection",
                connectionString := JVal.jstr "user=secret;password=secret" }) "T")).data := by
  constructor
  · rfl
  · decide

/-- C5, amended: when the connection string decomposes as
`a ++ "password=" ++ v ++ b` with no earlier case-insensitive `password=`
occurrence, a non-empty semicolon-free value `v`, and `b` empty or starting
with `;`, the success envelope of `create_database_connection` echoes the
connection string with that first password segment's value replaced by the
masking placeholder `***`; occurrences of the value outside that segment are
not redacted. -/
theorem c5_amended_first_segment_masked (bag : ArgBag) (now a v b : String)
    (hp : validStr bag.projectPath = true)
    (ha : bag.action = JVal.jstr "create_database_connection")
    (hc : bag.connectionString = JVal.jstr (a ++ ("password=" ++ (v ++ b))))
    (hEarly : noEarlyMatch a.data ("password=".data ++ (v.data ++ b.data)) = true)
    (hv : v.data ≠ []) (hvs : ∀ c ∈ v.data, c ≠ ';')
    (hb : b.data = [] ∨ ∃ b2, b.data = ';' :: b2) :
    dispatch "readyapi_manage_test_data" (some bag) now
      = textEnv (createDatabaseConnectionText bag.projectPath
          (a ++ ("password=***" ++ b)) now) := by
  have hcs : (a ++ ("password=" ++ (v ++ b))) ≠ "" := by
    intro h0
    have h1 := congrArg List.length (congrArg String.data h0)
    rw [show (a ++ ("password=" ++ (v ++ b))).data
        = a.data ++ ("password=".data ++ (v.data ++ b.data)) by
      simp [String.data_append]] at h1
    simp [List.length_append] at h1
  rw [dispatch_data]
  have hbody : dataBody bag now
      = .ok (createDatabaseConnectionText bag.projectPath
          (redactPassword (a ++ ("password=" ++ (v ++ b)))) now) := by
    unfold dataBody createDatabaseConnection
    rw [hp, ha, hc]
    rw [if_neg (by decide : ¬((!true : Bool) = true))]
    rw [if_neg (by decide : ¬((!(JVal.jstr "create_database_connection").truthy : Bool)
        = true))]
    rw [if_neg (by decide : ¬(JVal.jstr "create_database_connection"
        = JVal.jstr "create_datasource"))]
    rw [if_neg (by decide : ¬(JVal.jstr "create_database_connection"
        = JVal.jstr "import_excel"))]
    rw [if_pos rfl]
    rw [if_neg (by simp [JVal.truthy, hcs] :
        ¬((!(JVal.jstr (a ++ ("password=" ++ (v ++ b)))).truthy : Bool) = true))]
    rw [if_neg (by simp [JVal.isString] :
        ¬((!(JVal.jstr (a ++ ("password=" ++ (v ++ b)))).isString : Bool) = true))]
    rfl
  rw [hbody]
  show textEnv (createDatabaseConnectionText bag.projectPath
      (redactPassword (a ++ ("password=" ++ (v ++ b)))) now) = _
  rw [redactPassword_append a v b hEarly hv hvs hb]

theorem c5_amended_first_segment_masked_witness :
    dispatch "readyapi_manage_test_data"
      (some { projectPath := JVal.jstr "/p.xml",
              action := JVal.jstr "create_database_connection",
              connectionString := JVal.jstr "Server=db;password=secret;User=sa" }) "T"
      = textEnv (createDatabaseConnectionText (JVal.jstr "/p.xml")
          ("Server=db;" ++ ("password=***" ++ ";User=sa")) "T") :=
  c5_amended_first_segment_masked
    { projectPath := JVal.jstr "/p.xml",
      action := JVal.jstr "create_database_connection",
      connectionString := JVal.jstr "Server=db;password=secret;User=sa" }
    "T" "Server=db;" "secret" ";User=sa"
    (by decide) rfl rfl (by decide) (by decide) (by decide)
    (Or.inr ⟨"User=sa".data, rfl⟩)

/-- C9: `execute_test_suite` with valid `projectPath` and `testSuitePath`
and no `testRunner` defaults `testRunner` to `headless` (and `environment`
to `default`), and the returned text contains the headless-mode command-line
rendering of that default: a `testrunner.bat` invocation interpolating the
suite path, the environment, and the project path. -/
theorem c9_headless_default (p s now : String) (hp : p ≠ "") (hs : s ≠ "") :
    ∃ x y, envText (dispatch "readyapi_execute_test_suite"
        (some { projectPath := JVal.jstr p, testSuitePath := JVal.jstr s }) now)
      = x ++ (("testrunner.bat -s\"" ++ s ++ "\" -e\"default\" \"" ++ p ++ "\"") ++ y) := by
  have hv1 : validStr (JVal.jstr p) = true := by
    simp [validStr, JVal.truthy, JVal.isString, hp]
  have hv2 : validStr (JVal.jstr s) = true := by
    simp [validStr, JVal.truthy, JVal.isString, hs]
  rw [dispatch_exec]
  have hb : execBody { projectPath := JVal.jstr p, testSuitePath := JVal.jstr s } now
      = .ok (performTestExecution (JVal.jstr p) (JVal.jstr s)
          (JVal.jstr "default") (JVal.jstr "headless") now) := by
    simp [execBody, JVal.withDefault, hv1, hv2]
  rw [hb]
  show ∃ x y, performTestExecution (JVal.jstr p) (JVal.jstr s)
      (JVal.jstr "default") (JVal.jstr "headless") now = _
  unfold performTestExecution execCmdLine
  rw [if_pos rfl]
  refine ⟨("ReadyAPI Test Suite Execution Report\n  \n🚀 Execution Details:\n- Project: " ++ p ++ "\n- Test Suite: " ++ s ++ "\n- Environment: " ++ "default" ++ "\n- Test Runner: " ++ "headless" ++ "\n- Started: " ++ now
      ++ "\n\n📋 Execution Steps:\n1. ✅ Project validation completed\n2. ✅ Test suite loaded successfully\n3. ✅ Environment configuration applied\n4. ⏳ Executing test cases...\n\n🔄 Test Execution Progress:\n- Test Case 1: SOAP Service Authentication ✅ PASSED\n- Test Case 2: REST API Endpoint Validation ✅ PASSED\n- Test Case 3: Data-Driven User Scenarios ⏳ RUNNING\n- Test Case 4: Error Handling Tests ⏳ PENDING\n- Test Case 5: Performance Validation ⏳ PENDING\n\n📊 Real-time Results:\n- Tests Executed: 2/5\n- Passed: 2\n- Failed: 0\n- Skipped: 0\n- Success Rate: 100%\n\n⚡ Performance Metrics:\n- Average Response Time: 245ms\n- Fastest Test: 156ms\n- Slowest Test: 334ms\n- Total Execution Time: 12.5s\n\n🔧 Implementation Features to Add:\n1. Real ReadyAPI testrunner integration\n2. Live execution monitoring\n3. Detailed assertion validation\n4. Custom report generation\n5. Error screenshot capture\n6. Environment-specific configurations\n\n💡 Command Line Equivalent:\n"), "\n\nNote: This is a foundational implementation. Actual ReadyAPI integration with testrunner.bat/.sh and real-time monitoring will be implemented in subsequent iterations.", ?_⟩
  simp [JVal.toStr, String.append_assoc]

theorem c9_headless_default_witness :
    ∃ x y, envText (dispatch "readyapi_execute_test_suite"
        (some { projectPath := JVal.jstr "/p.xml", testSuitePath := JVal.jstr "Suite1" }) "T")
      = x ++ (("testrunner.bat -s\"" ++ "Suite1" ++ "\" -e\"default\" \"" ++ "/p.xml" ++ "\"") ++ y) :=
  c9_headless_default "/p.xml" "Suite1" "T" (by decide) (by decide)
